import Mathlib

/-!
# Verification of the grid clustering engine of maptalks.clusterlayer

This file gives a shallow embedding, in Lean 4, of the clustering core of
`src/index.js` (the canvas renderer of `ClusterLayer`): the point index
(`_initGridSystem`), the per-zoom grid bucketing (`_computeZoomGrid`), the
neighbour merging (`_mergeClusters`), the per-zoom cache (`_computeGrid`),
the renderer-side hit test (`identify`) and the layer's `addGeometry` check.

Modelling conventions:
* JavaScript numbers are modelled by `ℚ` (exact arithmetic; floating point
  rounding is not modelled).
* A grid key `gx + '_' + gy` is modelled by the pair `(gx, gy) : ℤ × ℤ`
  (the string format is in bijection with the pair for integer components,
  and the code parses it back with `split('_')` and unary `+`).
* A JavaScript object used as a dictionary is modelled by an association
  list (`List (key × value)`); object keys of the form `"gx_gy"` are not
  array indices, so `for (const p in o)` iterates in insertion order,
  which the list order models.  JS object keys are unique, so deletion
  (`delete o[k]`) is modelled by removing every binding of `k`.
* Cell/cluster objects are mutated in place by the code and are created
  exactly once per grid key (the `key` field never changes), so object
  identity is modelled by the creating grid key: `grids[k]` always holds
  the (current state of the) object whose `key` is `k`, and references to
  cluster objects (in `clusterMap`, and the `parent` field) are modelled
  by the identity key of the referenced object.
* `Math.sqrt(x*x + y*y) <= r` (from `_distanceTo`) is modelled by the
  equivalent exact comparison `0 ≤ r ∧ x² + y² ≤ r²` (square root is
  monotone and non-negative on the reals).
-/

/-- A planar coordinate (`maptalks.Coordinate`, only `x` and `y` are used). -/
abbrev Coord : Type := ℚ × ℚ

/-- An integer grid key: the pair behind the string `gx + '_' + gy`. -/
abbrev GKey : Type := ℤ × ℤ

/-- `Coordinate._add`: componentwise sum. -/
def cadd (a b : Coord) : Coord := (a.1 + b.1, a.2 + b.2)

/-- `Coordinate.multi(q)`: componentwise scaling. -/
def cmulq (q : ℚ) (a : Coord) : Coord := (q * a.1, q * a.2)

/-- Models `this._distanceTo(c1, c2) <= r`, i.e.
`Math.sqrt(dx*dx + dy*dy) <= r`, by the exact equivalent
`0 ≤ r ∧ dx² + dy² ≤ r²`. -/
def distWithin (a b : Coord) (r : ℚ) : Bool :=
  decide (0 ≤ r ∧ (a.1 - b.1) * (a.1 - b.1) + (a.2 - b.2) * (a.2 - b.2) ≤ r * r)

/-- The 8 neighbour offsets visited by the double loop
`for (ii = -1..1) for (iii = -1..1) if (ii,iii) ≠ (0,0)`, in loop order. -/
def offs : List GKey :=
  [(-1, -1), (-1, 0), (-1, 1), (0, -1), (0, 1), (1, -1), (1, 0), (1, 1)]

/-- A grid cell / cluster object, as built by `_computeZoomGrid` and
mutated by `_mergeClusters`.  `children` holds the internal ids of the
member geometries (the code stores the geometry objects themselves, which
are identified by their internal id).  `parent` holds the identity key of
the referenced cluster at the next coarser zoom, `none` for the JS
`undefined`. -/
structure Cell where
  sum : Coord
  center : Coord
  count : ℕ
  textSumProperty : ℚ
  children : List ℕ
  key : GKey
  parent : Option GKey
deriving Repr, DecidableEq

/-- The `grids` dictionary: grid key to cell, in insertion order. -/
abbrev Grids : Type := List (GKey × Cell)

/-- The `clusterMap` dictionary: every original cell key to the identity
key of the cluster object it references. -/
abbrev CMap : Type := List (GKey × GKey)

/-- The value returned by `_mergeClusters` and cached per zoom:
`{ clusters, clusterMap }`. -/
structure LevelResult where
  clusters : Grids
  clusterMap : CMap
deriving Repr, DecidableEq

/-! ## Association list primitives (JS dictionary operations) -/

/-- Dictionary read `o[k]` (first binding wins; keys are unique on all
reachable states). -/
def alook {α : Type} (g : List (GKey × α)) (k : GKey) : Option α :=
  match g with
  | [] => none
  | (k0, v) :: t => if k0 = k then some v else alook t k

/-- In-place value update of an existing key (object mutation through
`o[k].field = ...`); identity when the key is absent. -/
def aupd {α : Type} (q : GKey) (f : α → α) (g : List (GKey × α)) : List (GKey × α) :=
  match g with
  | [] => []
  | (k0, v) :: t => if k0 = q then (k0, f v) :: t else (k0, v) :: aupd q f t

/-- `delete o[k]`: removes the binding of `k` (keys are unique, so
removing every binding models it). -/
def aerase {α : Type} (q : GKey) (g : List (GKey × α)) : List (GKey × α) :=
  match g with
  | [] => []
  | (k0, v) :: t => if k0 = q then aerase q t else (k0, v) :: aerase q t

/-- `o[k] = v`: overwrite when present, append when absent. -/
def aset {α : Type} (q : GKey) (v : α) (g : List (GKey × α)) : List (GKey × α) :=
  match alook g q with
  | some _ => aupd q (fun _ => v) g
  | none => g ++ [(q, v)]

/-! ## Point index: `_initGridSystem` -/

/-- A geometry of the layer, with its projected coordinates
(`_getPrjCoordinates`), internal id, the value of the configured
`textSumProperty` (0 when the property is absent or falsy), and
visibility. -/
structure Geo where
  gx : ℚ
  gy : ℚ
  gid : ℕ
  gprop : ℚ
  visible : Bool
deriving Repr, DecidableEq

/-- A point of `this._markerPoints`: `{x, y, id, geometry}` (the geometry
is kept through its id and its `textSumProperty` value). -/
structure MPoint where
  x : ℚ
  y : ℚ
  id : ℕ
  prop : ℚ
deriving Repr, DecidableEq

/-- A projected extent (`_getPrjExtent` / `_combine`). -/
structure Extent where
  xmin : ℚ
  ymin : ℚ
  xmax : ℚ
  ymax : ℚ
deriving Repr, DecidableEq

/-- The degenerate projected extent of a point marker. -/
def geoExtent (g : Geo) : Extent := ⟨g.gx, g.gy, g.gx, g.gy⟩

/-- `Extent._combine`. -/
def extCombine (a b : Extent) : Extent :=
  ⟨min a.xmin b.xmin, min a.ymin b.ymin, max a.xmax b.xmax, max a.ymax b.ymax⟩

/-- `extent.getMin()`. -/
def extMin (e : Extent) : Coord := (e.xmin, e.ymin)

/-- `_initGridSystem`: walk the layer's geometries in order, skip the
invisible ones, combine the extent and collect the points. -/
def initGridSystem (geos : List Geo) : Option Extent × List MPoint :=
  geos.foldl
    (fun acc g =>
      if g.visible then
        (match acc.1 with
         | none => some (geoExtent g)
         | some e => some (extCombine e (geoExtent g)),
         acc.2 ++ [⟨g.gx, g.gy, g.gid, g.gprop⟩])
      else acc)
    (none, [])

/-! ## Bucketing: the grid-filling loop of `_computeZoomGrid` -/

/-- `Math.floor((p - min) / r)` on both axes. -/
def bucketKey (minc : Coord) (r : ℚ) (p : Coord) : GKey :=
  (⌊(p.1 - minc.1) / r⌋, ⌊(p.2 - minc.2) / r⌋)

/-- The `parent` reference assigned when a cell is created:
`if (preT && preCache) grids[key]['parent'] =
preCache['clusterMap'][pkey]`, where `pkey` buckets the creating point's
coordinates at the previous zoom's cell size. -/
def parentOfPoint (minc : Coord) (preT : Option ℚ) (preCache : Option LevelResult)
    (p : MPoint) : Option GKey :=
  match preT, preCache with
  | some t, some pc => alook pc.clusterMap (bucketKey minc t (p.x, p.y))
  | _, _ => none

/-- Process one point of the bucketing loop of `_computeZoomGrid`:
either create its cell (with the `parent` reference of the creating
point) or accumulate into the existing cell. -/
def addPoint (useProp : Bool) (minc : Coord) (r : ℚ) (preT : Option ℚ)
    (preCache : Option LevelResult) (g : Grids) (p : MPoint) : Grids :=
  match alook g (bucketKey minc r (p.x, p.y)) with
  | none =>
    g ++ [(bucketKey minc r (p.x, p.y),
      { sum := (p.x, p.y)
        center := (p.x, p.y)
        count := 1
        textSumProperty := if useProp then p.prop else 0
        children := [p.id]
        key := bucketKey minc r (p.x, p.y)
        parent := parentOfPoint minc preT preCache p })]
  | some _ =>
    aupd (bucketKey minc r (p.x, p.y))
      (fun c =>
        { c with
          sum := cadd c.sum (p.x, p.y)
          count := c.count + 1
          center := cmulq (1 / ((c.count + 1 : ℕ) : ℚ)) (cadd c.sum (p.x, p.y))
          children := c.children ++ [p.id]
          textSumProperty := c.textSumProperty + (if useProp then p.prop else 0) })
      g

/-! ## Merging: `_mergeClusters` -/

/-- The neighbour scan of one unvisited cell `c1`: the keys of the cells
pushed into `merging[c1.key]`, in loop order.  A neighbour `c2` is pushed
exactly when it exists in `grids` and
`_distanceTo(c1.center, c2.center) <= r`. -/
def scanHit (grids : Grids) (c1 : Cell) (r : ℚ) (o : GKey) : Option GKey :=
  match alook grids (c1.key.1 + o.1, c1.key.2 + o.2) with
  | some c2 => if distWithin c1.center c2.center r then some c2.key else none
  | none => none

def scanNeighbors (grids : Grids) (c1 : Cell) (r : ℚ) : List GKey :=
  offs.filterMap (scanHit grids c1 r)

/-- The first pass of `_mergeClusters` ("find clusters need to merge"):
walk the grid entries in order, skip visited ones, and record every
neighbour within `r` of the current cell, marking it visited. -/
def findMergingLoop (grids : Grids) (r : ℚ) :
    List (GKey × Cell) → List GKey → List (GKey × List GKey) →
    List GKey × List (GKey × List GKey)
  | [], vis, mrg => (vis, mrg)
  | (_, c1) :: rest, vis, mrg =>
    if c1.key ∈ vis then findMergingLoop grids r rest vis mrg
    else if scanNeighbors grids c1 r = [] then findMergingLoop grids r rest vis mrg
    else
      findMergingLoop grids r rest (vis ++ scanNeighbors grids c1 r)
        (mrg ++ [(c1.key, scanNeighbors grids c1 r)])

/-- The completed first pass over the whole grid. -/
def findMerging (grids : Grids) (r : ℚ) : List GKey × List (GKey × List GKey) :=
  findMergingLoop grids r grids [] []

/-- Absorb one listed neighbour `tk` into the surviving cell `mk` (one
iteration of the inner loop of the "merge clusters" pass): when `tk` is
still present, add its sums into `mk`, point `clusterMap[tk]` at `mk` and
delete `tk`.  The code reads the fields off the pushed object reference,
which is the object stored at `grids[tk]` whenever that binding exists. -/
def absorbFun (tv : Cell) (c : Cell) : Cell :=
  { c with
    sum := cadd c.sum tv.sum
    count := c.count + tv.count
    textSumProperty := c.textSumProperty + tv.textSumProperty
    children := c.children ++ tv.children }

def absorbOne (mk : GKey) (gm : Grids × CMap) (tk : GKey) : Grids × CMap :=
  match alook gm.1 tk with
  | none => gm
  | some tv => (aerase tk (aupd mk (absorbFun tv) gm.1), aset tk mk gm.2)

/-- `grid['center'] = grid['sum'].multi(1 / grid['count'])`. -/
def centerFun (c : Cell) : Cell :=
  { c with center := cmulq (1 / ((c.count : ℕ) : ℚ)) c.sum }

/-- Process one entry of `merging`: skip it when its cell is gone,
otherwise absorb the listed neighbours and recompute the center as
`sum * (1 / count)`. -/
def mergeEntry (gm : Grids × CMap) (e : GKey × List GKey) : Grids × CMap :=
  match alook gm.1 e.1 with
  | none => gm
  | some _ =>
    (aupd e.1 centerFun (e.2.foldl (absorbOne e.1) gm).1,
     (e.2.foldl (absorbOne e.1) gm).2)

/-- The initial `clusterMap`: every grid key referencing its own cell. -/
def cmapInit (grids : Grids) : CMap := grids.map (fun kc => (kc.1, kc.1))

/-- The `(grids, clusterMap)` state after the merge pass. -/
def mergedState (grids : Grids) (r : ℚ) : Grids × CMap :=
  (findMerging grids r).2.foldl mergeEntry (grids, cmapInit grids)

/-- `_mergeClusters(grids, r)`: copy `grids` into `clusterMap`, find the
cells to merge, merge them, and return `{ clusters, clusterMap }`. -/
def mergeClusters (grids : Grids) (r : ℚ) : LevelResult :=
  ⟨(mergedState grids r).1, (mergedState grids r).2⟩

/-! ## The per-zoom cache: `_computeZoomGrid` and `_computeGrid` -/

/-- The collaborators and configuration of the clustering engine: the
layer's geometries, the host map's `_getResolution` (a value of `0`
models a falsy / unavailable resolution), `options.maxClusterRadius`,
whether `options.textSumProperty` is configured, the map's zoom bounds
and `layer.getCount()`. -/
structure ClusterEnv where
  geos : List Geo
  res : ℤ → ℚ
  radius : ℚ
  useProp : Bool
  minZoom : ℤ
  maxZoom : ℤ
  totalCount : ℕ

/-- `this._markerExtent` after `_initGridSystem`. -/
def markerExtent (env : ClusterEnv) : Option Extent := (initGridSystem env.geos).1

/-- `this._markerPoints` after `_initGridSystem`. -/
def markerPoints (env : ClusterEnv) : List MPoint := (initGridSystem env.geos).2

/-- `this._clusterCache`: zoom to stored level result; a stored `none`
models the JS `null` returned by `_computeZoomGrid` without an extent. -/
abbrev Cache : Type := List (ℤ × Option LevelResult)

/-- Cache read `this._clusterCache[z]` (`none` for `undefined`). -/
def clook (cache : Cache) (z : ℤ) : Option (Option LevelResult) :=
  match cache with
  | [] => none
  | (z0, v) :: t => if z0 = z then some v else clook t z

/-- Cache write `this._clusterCache[z] = v`. -/
def cset (z : ℤ) (v : Option LevelResult) (cache : Cache) : Cache :=
  match cache with
  | [] => [(z, v)]
  | (z0, v0) :: t => if z0 = z then (z0, v) :: t else (z0, v0) :: cset z v t

/-- `r = map._getResolution(zoom) * this.layer.options['maxClusterRadius']`. -/
def cellSize (env : ClusterEnv) (z : ℤ) : ℚ := env.res z * env.radius

/-- `preT = map._getResolution(zoom - 1) ? map._getResolution(zoom - 1) *
radius : null`. -/
def preTOf (env : ClusterEnv) (z : ℤ) : Option ℚ :=
  if env.res (z - 1) = 0 then none else some (env.res (z - 1) * env.radius)

/-- The bucketing loop of `_computeZoomGrid` at zoom `z`, given the
previous zoom's cached result `pc`. -/
def bucketGrids (env : ClusterEnv) (e : Extent) (z : ℤ) (pc : Option LevelResult) : Grids :=
  (markerPoints env).foldl
    (addPoint env.useProp (extMin e) (cellSize env z) (preTOf env z) pc) []

/-- The acquisition of the previous zoom's result inside
`_computeZoomGrid(zoom)`:
`let preCache = this._clusterCache[zoom - 1];
if (!preCache && zoom - 1 >= map.getMinZoom())
  this._clusterCache[zoom - 1] = preCache = this._computeZoomGrid(zoom - 1);`
returning the (possibly still falsy) `preCache` and the updated cache. -/
def preResult (env : ClusterEnv) (recur : ℤ → Cache → Option LevelResult × Cache)
    (z : ℤ) (cache : Cache) : Option LevelResult × Cache :=
  match clook cache (z - 1) with
  | some (some lr) => (some lr, cache)
  | _ =>
    if z - 1 ≥ env.minZoom then
      ((recur (z - 1) cache).1,
       cset (z - 1) (recur (z - 1) cache).1 (recur (z - 1) cache).2)
    else (none, cache)

/-- The body of `_computeZoomGrid(zoom)`: return `null` without an
extent; otherwise obtain the previous zoom's result, bucket the points
and merge with radius `r / 2`. -/
def computeZoomBody (env : ClusterEnv)
    (recur : ℤ → Cache → Option LevelResult × Cache)
    (z : ℤ) (cache : Cache) : Option LevelResult × Cache :=
  match markerExtent env with
  | none => (none, cache)
  | some e =>
    (some (mergeClusters (bucketGrids env e z (preResult env recur z cache).1)
        (cellSize env z / 2)),
     (preResult env recur z cache).2)

/-- `_computeZoomGrid` with explicit recursion fuel; the recursion
descends one zoom per call and stops at `minZoom`, so any
`fuel ≥ z - minZoom` makes the fuel-exhausting branch unreachable. -/
def computeZoomGridAux (env : ClusterEnv) : ℕ → ℤ → Cache → Option LevelResult × Cache
  | 0 => computeZoomBody env (fun _ cache => (none, cache))
  | f + 1 => computeZoomBody env (computeZoomGridAux env f)

/-- `o.length` for a `{clusters, clusterMap}` object: the object has no
`length` property, so the access yields `undefined` (`none`). -/
def lengthProp (_lr : LevelResult) : Option ℕ := none

/-- The reuse test of `_computeGrid`:
`this._clusterCache[pre] && this._clusterCache[pre].length ===
this.layer.getCount()` (a strict comparison of `undefined` with a number
is `false`). -/
def reuseCond (entry : Option (Option LevelResult)) (total : ℕ) : Bool :=
  match entry with
  | some (some lr) =>
    match lengthProp lr with
    | some n => n == total
    | none => false
  | _ => false

/-- The adjacent zoom inspected by `_computeGrid`:
`map._getResolution(minZoom) > map._getResolution(maxZoom) ? zoom - 1 :
zoom + 1`. -/
def preZoom (env : ClusterEnv) (zoom : ℤ) : ℤ :=
  if env.res env.minZoom > env.res env.maxZoom then zoom - 1 else zoom + 1

/-- The cache after the (length-based) reuse test of `_computeGrid`. -/
def cacheAfterReuse (env : ClusterEnv) (zoom : ℤ) (cache : Cache) : Cache :=
  if reuseCond (clook cache (preZoom env zoom)) env.totalCount then
    match clook cache (preZoom env zoom) with
    | some (some lr) => cset zoom (some lr) cache
    | _ => cache
  else cache

/-- `_computeGrid()` at the current zoom: possibly alias the adjacent
zoom's cached result, then compute and store the zoom's result when the
cache has nothing truthy for it. -/
def computeGrid (env : ClusterEnv) (fuel : ℕ) (zoom : ℤ) (cache : Cache) : Cache :=
  match clook (cacheAfterReuse env zoom cache) zoom with
  | some (some _) => cacheAfterReuse env zoom cache
  | _ =>
    cset zoom (computeZoomGridAux env fuel zoom (cacheAfterReuse env zoom cache)).1
      (computeZoomGridAux env fuel zoom (cacheAfterReuse env zoom cache)).2

/-- The cluster source of `draw()`:
`this._clusterCache[zoom] ? this._clusterCache[zoom]['clusters'] : null`. -/
def zoomClustersOf (cache : Cache) (z : ℤ) : Option Grids :=
  match clook cache z with
  | some (some lr) => some lr.clusters
  | _ => none

/-- `for (const p in zoomClusters)` of `_getClustersToDraw`: iterating a
`null` object visits nothing. -/
def drawnClusterEntries (zc : Option Grids) : Grids :=
  match zc with
  | none => []
  | some g => g

/-- The full pipeline run by a redraw: rebuild the point index and the
requested zoom's clusters from an empty cache. -/
def fullClusterPipeline (env : ClusterEnv) (fuel : ℕ) (zoom : ℤ) : Cache :=
  computeGrid env fuel zoom []

/-! ## The renderer's `identify` -/

/-- A cluster as scanned by `identify` (`this._currentClusters`):
its projected center and its member geometries. -/
structure QCluster where
  qcenter : Coord
  qchildren : List ℕ
deriving Repr, DecidableEq

/-- The outcome of the renderer's `identify`. -/
inductive IdentifyResult where
  | clusterHit (center : Coord) (children : List ℕ)
  | markers (gs : List ℕ)
  | nothing
deriving Repr, DecidableEq

/-- The cluster loop of `identify`: scan in stored order and return the
first cluster whose projected center is within its sprite width
(`point.distanceTo(pt) <= markerWidth`) of the query point. -/
def identifyScan (proj : Coord → Coord) (widthOf : QCluster → ℚ) (pt : Coord) :
    List QCluster → Option QCluster
  | [] => none
  | c :: rest =>
    if distWithin pt (proj c.qcenter) (widthOf c) then some c
    else identifyScan proj widthOf pt rest

/-- The renderer's `identify(coordinate)` below `maxClusterZoom`:
`proj` is `map._prjToContainerPoint`, `unproj` is
`map.getProjection().unproject`, `widthOf` gives the sprite width used as
hit radius for a cluster, and `hitGeos` is `layer._hitGeos` over
`this._markersToDraw`.  Returns the first hit cluster, else the marker
hit test, else `null`. -/
def rendererIdentify (proj : Coord → Coord) (unproj : Coord → Coord)
    (widthOf : QCluster → ℚ) (hitGeos : List ℕ → Coord → List ℕ)
    (currentClusters : Option (List QCluster)) (markersToDraw : Option (List ℕ))
    (pt : Coord) : IdentifyResult :=
  match currentClusters with
  | some cs =>
    match identifyScan proj widthOf pt cs with
    | some c => .clusterHit (unproj c.qcenter) c.qchildren
    | none =>
      match markersToDraw with
      | some ms => .markers (hitGeos ms pt)
      | none => .nothing
  | none =>
    match markersToDraw with
    | some ms => .markers (hitGeos ms pt)
    | none => .nothing

/-! ## `ClusterLayer.addGeometry` -/

/-- A JavaScript value as far as the `addGeometry` type check can
distinguish one: `undefined`, a boolean, a `maptalks.Marker`, or any
other object. -/
inductive JSVal where
  | undef
  | jbool (b : Bool)
  | jmarker (id : ℕ)
  | jother
deriving Repr, DecidableEq

/-- JS truthiness of a `JSVal`. -/
def truthy : JSVal → Bool
  | .undef => false
  | .jbool b => b
  | .jmarker _ => true
  | .jother => true

/-- The JS `!` operator: always yields a boolean. -/
def jsNot (v : JSVal) : JSVal := .jbool (!truthy v)

/-- `v instanceof maptalks.Marker`. -/
def instanceOfMarker : JSVal → Bool
  | .jmarker _ => true
  | _ => false

/-- The per-element check of `addGeometry`: the loop runs `i` from `0`
to `markers.length` inclusive (reading `undefined` one past the end) and
throws when `!markers[i] instanceof maptalks.Marker` — which, by
precedence, asks whether the boolean `!markers[i]` is a `Marker`. -/
def addGeometryThrows (markers : List JSVal) : Bool :=
  (List.range (markers.length + 1)).any
    (fun i => instanceOfMarker (jsNot (markers.getD i .undef)))

/-- `super.addGeometry.apply(this, arguments)`, as an opaque collaborator
observation: the arguments it was reached with. -/
def superAddGeometry (markers : List JSVal) : List JSVal := markers

/-- `ClusterLayer.addGeometry`: throw the `Error` when the check fires,
otherwise defer to the superclass. -/
def addGeometry (markers : List JSVal) : Except String (List JSVal) :=
  if addGeometryThrows markers then
    .error "Only a point(Marker) can be added into a ClusterLayer"
  else .ok (superAddGeometry markers)

/-! ## Association list lemmas -/

theorem alook_aupd {α : Type} (q : GKey) (f : α → α) (g : List (GKey × α)) (k : GKey) :
    alook (aupd q f g) k = if q = k then (alook g k).map f else alook g k := by
  induction g with
  | nil => simp [alook, aupd]
  | cons kc t ih =>
    obtain ⟨k0, v⟩ := kc
    simp only [aupd]
    by_cases h0 : k0 = q
    · subst h0
      by_cases hk : k0 = k
      · subst hk
        simp [alook]
      · simp [alook, hk]
    · have hq0 : ¬q = k0 := fun h => h0 h.symm
      simp only [alook, if_neg h0]
      by_cases hk : k0 = k
      · subst hk
        simp [hq0]
      · simp [hk, ih]

theorem alook_aerase {α : Type} (q : GKey) (g : List (GKey × α)) (k : GKey) :
    alook (aerase q g) k = if q = k then none else alook g k := by
  induction g with
  | nil => simp [alook, aerase]
  | cons kc t ih =>
    obtain ⟨k0, v⟩ := kc
    simp only [aerase]
    by_cases h0 : k0 = q
    · rw [if_pos h0]
      subst h0
      rw [ih]
      by_cases hk : k0 = k
      · subst hk
        simp [alook]
      · simp [alook, hk]
    · rw [if_neg h0]
      have hq0 : ¬q = k0 := fun h => h0 h.symm
      by_cases hk : k0 = k
      · subst hk
        simp [alook, hq0]
      · simp only [alook, if_neg hk]
        exact ih

theorem alook_append_fresh {α : Type} (q : GKey) (v : α) (g : List (GKey × α)) (k : GKey)
    (hq : alook g q = none) :
    alook (g ++ [(q, v)]) k = if q = k then some v else alook g k := by
  induction g with
  | nil => simp [alook]
  | cons kc t ih =>
    obtain ⟨k0, w⟩ := kc
    simp only [alook] at hq
    by_cases h0 : k0 = q
    · simp [h0] at hq
    · rw [if_neg h0] at hq
      have hq0 : ¬q = k0 := fun h => h0 h.symm
      by_cases hk : k0 = k
      · subst hk
        simp [alook, hq0]
      · simp only [List.cons_append, alook, if_neg hk]
        exact ih hq

theorem alook_aset {α : Type} (q : GKey) (v : α) (g : List (GKey × α)) (k : GKey) :
    alook (aset q v g) k = if q = k then some v else alook g k := by
  unfold aset
  cases hq : alook g q with
  | some w =>
    rw [alook_aupd]
    by_cases hk : q = k
    · subst hk
      simp [hq]
    · simp [hk]
  | none => exact alook_append_fresh q v g k hq

theorem alook_mem {α : Type} {g : List (GKey × α)} {k : GKey} {v : α}
    (h : alook g k = some v) : (k, v) ∈ g := by
  induction g with
  | nil => simp [alook] at h
  | cons kc t ih =>
    obtain ⟨k0, w⟩ := kc
    simp only [alook] at h
    by_cases h0 : k0 = k
    · subst h0
      rw [if_pos rfl] at h
      cases h
      exact List.mem_cons_self _ _
    · rw [if_neg h0] at h
      exact List.mem_cons_of_mem _ (ih h)

/-- The keys of a dictionary. -/
def akeys {α : Type} (g : List (GKey × α)) : List GKey := g.map Prod.fst

/-- Key uniqueness: the invariant of every reachable JS object state. -/
def NodupKeys {α : Type} (g : List (GKey × α)) : Prop := (akeys g).Nodup

theorem alook_none_iff {α : Type} (g : List (GKey × α)) (k : GKey) :
    alook g k = none ↔ k ∉ akeys g := by
  induction g with
  | nil => simp [alook, akeys]
  | cons kc t ih =>
    obtain ⟨k0, v⟩ := kc
    by_cases h0 : k0 = k
    · subst h0
      simp [alook, akeys]
    · have hk0 : ¬k = k0 := fun h => h0 h.symm
      simp [alook, akeys, h0, hk0, ih]

theorem mem_alook {α : Type} {g : List (GKey × α)} (hnd : NodupKeys g) {k : GKey} {v : α}
    (h : (k, v) ∈ g) : alook g k = some v := by
  induction g with
  | nil => simp at h
  | cons kc t ih =>
    obtain ⟨k0, w⟩ := kc
    unfold NodupKeys akeys at hnd
    simp only [List.map_cons, List.nodup_cons] at hnd
    rcases List.mem_cons.mp h with h1 | h1
    · rw [Prod.mk.injEq] at h1
      obtain ⟨hk, hv⟩ := h1
      subst hk
      subst hv
      simp [alook]
    · have hk0 : k0 ≠ k := by
        intro he
        subst he
        exact hnd.1 (List.mem_map_of_mem Prod.fst h1)
      simp only [alook, if_neg hk0]
      exact ih hnd.2 h1

theorem akeys_aupd {α : Type} (q : GKey) (f : α → α) (g : List (GKey × α)) :
    akeys (aupd q f g) = akeys g := by
  induction g with
  | nil => rfl
  | cons kc t ih =>
    obtain ⟨k0, v⟩ := kc
    by_cases h0 : k0 = q
    · simp [aupd, akeys, h0]
    · simp only [aupd, if_neg h0, akeys, List.map_cons, List.cons.injEq, true_and]
      exact ih

theorem nodup_aupd {α : Type} {g : List (GKey × α)} (q : GKey) (f : α → α)
    (h : NodupKeys g) : NodupKeys (aupd q f g) := by
  unfold NodupKeys
  rw [akeys_aupd]
  exact h

theorem aerase_sublist {α : Type} (q : GKey) (g : List (GKey × α)) :
    (aerase q g).Sublist g := by
  induction g with
  | nil => simp [aerase]
  | cons kc t ih =>
    obtain ⟨k0, v⟩ := kc
    simp only [aerase]
    by_cases h0 : k0 = q
    · simp only [if_pos h0]
      exact ih.cons _
    · simp only [if_neg h0]
      exact ih.cons₂ _

theorem nodup_aerase {α : Type} {g : List (GKey × α)} (q : GKey)
    (h : NodupKeys g) : NodupKeys (aerase q g) := by
  unfold NodupKeys akeys
  exact ((aerase_sublist q g).map Prod.fst).nodup h

theorem nodup_append_fresh {α : Type} {g : List (GKey × α)} {q : GKey} (v : α)
    (h : NodupKeys g) (hq : alook g q = none) : NodupKeys (g ++ [(q, v)]) := by
  unfold NodupKeys akeys
  rw [List.map_append]
  refine List.Nodup.append h (List.nodup_singleton _) ?_
  intro x hx hy
  have hxq : x = q := by simpa using hy
  rw [hxq] at hx
  exact (alook_none_iff g q).mp hq hx

/-! ## Counting and state invariants -/

/-- The total `count` over a grid dictionary. -/
def sumCounts (g : Grids) : ℕ := (g.map (fun kc => kc.2.count)).sum

/-- The centroid invariant of a cell: `center == sum / count`. -/
def centerOK (c : Cell) : Prop :=
  c.center = (c.sum.1 / (c.count : ℚ), c.sum.2 / (c.count : ℚ))

/-- Every cell is stored under its own `key` field. -/
def WFg (g : Grids) : Prop := ∀ k c, alook g k = some c → c.key = k

theorem aupd_of_none {α : Type} {g : List (GKey × α)} {q : GKey} (f : α → α)
    (hq : alook g q = none) : aupd q f g = g := by
  induction g with
  | nil => rfl
  | cons kc t ih =>
    obtain ⟨k0, v⟩ := kc
    simp only [alook] at hq
    by_cases h0 : k0 = q
    · simp [h0] at hq
    · rw [if_neg h0] at hq
      simp [aupd, h0, ih hq]

theorem aerase_of_none {α : Type} {g : List (GKey × α)} {q : GKey}
    (hq : alook g q = none) : aerase q g = g := by
  induction g with
  | nil => rfl
  | cons kc t ih =>
    obtain ⟨k0, v⟩ := kc
    simp only [alook] at hq
    by_cases h0 : k0 = q
    · simp [h0] at hq
    · rw [if_neg h0] at hq
      simp [aerase, h0, ih hq]

theorem sumCounts_append (g : Grids) (q : GKey) (c : Cell) :
    sumCounts (g ++ [(q, c)]) = sumCounts g + c.count := by
  simp [sumCounts]

theorem sumCounts_aupd {g : Grids} {q : GKey} {c : Cell} (f : Cell → Cell)
    (hq : alook g q = some c) :
    sumCounts (aupd q f g) + c.count = sumCounts g + (f c).count := by
  induction g with
  | nil => simp [alook] at hq
  | cons kc t ih =>
    obtain ⟨k0, v⟩ := kc
    simp only [alook] at hq
    by_cases h0 : k0 = q
    · rw [if_pos h0] at hq
      cases hq
      simp only [aupd, if_pos h0, sumCounts, List.map_cons, List.sum_cons]
      omega
    · rw [if_neg h0] at hq
      have := ih hq
      simp only [aupd, if_neg h0, sumCounts, List.map_cons, List.sum_cons]
      simp only [sumCounts] at this
      omega

theorem sumCounts_aerase {g : Grids} {q : GKey} {c : Cell}
    (hnd : NodupKeys g) (hq : alook g q = some c) :
    sumCounts (aerase q g) + c.count = sumCounts g := by
  induction g with
  | nil => simp [alook] at hq
  | cons kc t ih =>
    obtain ⟨k0, v⟩ := kc
    unfold NodupKeys akeys at hnd
    simp only [List.map_cons, List.nodup_cons] at hnd
    simp only [alook] at hq
    by_cases h0 : k0 = q
    · rw [if_pos h0] at hq
      cases hq
      have ht : alook t q = none := by
        rw [alook_none_iff]
        rw [← h0]
        exact fun hm => hnd.1 hm
      simp only [aerase, if_pos h0, aerase_of_none ht, sumCounts, List.map_cons, List.sum_cons]
      omega
    · rw [if_neg h0] at hq
      have := ih hnd.2 hq
      simp only [aerase, if_neg h0, sumCounts, List.map_cons, List.sum_cons]
      simp only [sumCounts] at this
      omega

/-! ## Invariants of the bucketing loop -/

theorem sumCounts_aupd_add {g : Grids} {q : GKey} {c : Cell} (f : Cell → Cell)
    (hq : alook g q = some c) (n : ℕ) (hf : (f c).count = c.count + n) :
    sumCounts (aupd q f g) = sumCounts g + n := by
  have := sumCounts_aupd f hq
  omega

theorem addPoint_sum (up : Bool) (minc : Coord) (r : ℚ) (preT : Option ℚ)
    (pc : Option LevelResult) (g : Grids) (p : MPoint) :
    sumCounts (addPoint up minc r preT pc g p) = sumCounts g + 1 := by
  unfold addPoint
  split
  · simp [sumCounts_append]
  · next c0 hq => exact sumCounts_aupd_add _ hq 1 (by simp)

theorem bucketFold_sum (up : Bool) (minc : Coord) (r : ℚ) (preT : Option ℚ)
    (pc : Option LevelResult) :
    ∀ (pts : List MPoint) (g : Grids),
      sumCounts (pts.foldl (addPoint up minc r preT pc) g) = sumCounts g + pts.length := by
  intro pts
  induction pts with
  | nil => intro g; simp
  | cons p rest ih =>
    intro g
    simp only [List.foldl_cons, ih, addPoint_sum, List.length_cons]
    omega

/-- The combined structural invariant of a bucketed grid. -/
def BucketInv (g : Grids) : Prop :=
  NodupKeys g ∧ WFg g ∧ (∀ k c, alook g k = some c → centerOK c) ∧
    (∀ k c, alook g k = some c → c.children ≠ [])

theorem addPoint_inv (up : Bool) (minc : Coord) (r : ℚ) (preT : Option ℚ)
    (pc : Option LevelResult) (g : Grids) (p : MPoint) (h : BucketInv g) :
    BucketInv (addPoint up minc r preT pc g p) := by
  obtain ⟨hnd, hwf, hc, hch⟩ := h
  unfold addPoint
  split
  · next hq =>
    refine ⟨nodup_append_fresh _ hnd hq, ?_, ?_, ?_⟩
    · intro k c hkc
      rw [alook_append_fresh _ _ _ _ hq] at hkc
      by_cases he : bucketKey minc r (p.x, p.y) = k
      · rw [if_pos he] at hkc
        cases hkc
        exact he
      · rw [if_neg he] at hkc
        exact hwf k c hkc
    · intro k c hkc
      rw [alook_append_fresh _ _ _ _ hq] at hkc
      by_cases he : bucketKey minc r (p.x, p.y) = k
      · rw [if_pos he] at hkc
        cases hkc
        unfold centerOK
        norm_num
      · rw [if_neg he] at hkc
        exact hc k c hkc
    · intro k c hkc
      rw [alook_append_fresh _ _ _ _ hq] at hkc
      by_cases he : bucketKey minc r (p.x, p.y) = k
      · rw [if_pos he] at hkc
        cases hkc
        simp
      · rw [if_neg he] at hkc
        exact hch k c hkc
  · next c0 hq =>
    refine ⟨nodup_aupd _ _ hnd, ?_, ?_, ?_⟩
    · intro k c hkc
      rw [alook_aupd] at hkc
      by_cases he : bucketKey minc r (p.x, p.y) = k
      · rw [if_pos he] at hkc
        cases hv : alook g k with
        | none => rw [hv] at hkc; simp at hkc
        | some v =>
          rw [hv] at hkc
          simp only [Option.map_some'] at hkc
          cases hkc
          exact hwf k v hv
      · rw [if_neg he] at hkc
        exact hwf k c hkc
    · intro k c hkc
      rw [alook_aupd] at hkc
      by_cases he : bucketKey minc r (p.x, p.y) = k
      · rw [if_pos he] at hkc
        cases hv : alook g k with
        | none => rw [hv] at hkc; simp at hkc
        | some v =>
          rw [hv] at hkc
          simp only [Option.map_some'] at hkc
          cases hkc
          unfold centerOK cmulq cadd
          simp only [Prod.mk.injEq]
          constructor <;> rw [one_div_mul_eq_div]
      · rw [if_neg he] at hkc
        exact hc k c hkc
    · intro k c hkc
      rw [alook_aupd] at hkc
      by_cases he : bucketKey minc r (p.x, p.y) = k
      · rw [if_pos he] at hkc
        cases hv : alook g k with
        | none => rw [hv] at hkc; simp at hkc
        | some v =>
          rw [hv] at hkc
          simp only [Option.map_some'] at hkc
          cases hkc
          simp
      · rw [if_neg he] at hkc
        exact hch k c hkc

theorem bucketFold_inv (up : Bool) (minc : Coord) (r : ℚ) (preT : Option ℚ)
    (pc : Option LevelResult) :
    ∀ (pts : List MPoint) (g : Grids), BucketInv g →
      BucketInv (pts.foldl (addPoint up minc r preT pc) g) := by
  intro pts
  induction pts with
  | nil => intro g h; exact h
  | cons p rest ih =>
    intro g h
    exact ih _ (addPoint_inv up minc r preT pc g p h)

theorem bucketInv_nil : BucketInv [] := by
  refine ⟨by simp [NodupKeys, akeys], ?_, ?_, ?_⟩ <;> intro k c hkc <;> simp [alook] at hkc

/-! ## The neighbour scan and the first merge pass -/

theorem distWithin_symm (a b : Coord) (r : ℚ) :
    distWithin a b r = distWithin b a r := by
  unfold distWithin
  have h1 : (a.1 - b.1) * (a.1 - b.1) = (b.1 - a.1) * (b.1 - a.1) := by ring
  have h2 : (a.2 - b.2) * (a.2 - b.2) = (b.2 - a.2) * (b.2 - a.2) := by ring
  rw [h1, h2]

theorem scanHit_eq_some {grids : Grids} {c1 : Cell} {r : ℚ} {o x : GKey} :
    scanHit grids c1 r o = some x ↔
      ∃ cx, alook grids (c1.key.1 + o.1, c1.key.2 + o.2) = some cx ∧
        cx.key = x ∧ distWithin c1.center cx.center r = true := by
  unfold scanHit
  split
  · next cx halook =>
    rw [halook]
    by_cases hd : distWithin c1.center cx.center r
    · rw [if_pos hd]
      constructor
      · intro h
        injection h with h
        exact ⟨cx, rfl, h, hd⟩
      · rintro ⟨cx1, hcx1, hkey, hdist⟩
        rw [Option.some_inj] at hcx1
        subst hcx1
        rw [hkey]
    · rw [if_neg hd]
      constructor
      · intro h
        exact Option.noConfusion h
      · rintro ⟨cx1, hcx1, hkey, hdist⟩
        rw [Option.some_inj] at hcx1
        subst hcx1
        exact absurd hdist hd
  · next halook =>
    rw [halook]
    constructor
    · intro h
      exact Option.noConfusion h
    · rintro ⟨cx1, hcx1, hkey, hdist⟩
      exact Option.noConfusion hcx1

theorem mem_scanNeighbors {grids : Grids} {c1 : Cell} {r : ℚ} {x : GKey} :
    x ∈ scanNeighbors grids c1 r ↔
      ∃ o ∈ offs, ∃ cx, alook grids (c1.key.1 + o.1, c1.key.2 + o.2) = some cx ∧
        cx.key = x ∧ distWithin c1.center cx.center r = true := by
  unfold scanNeighbors
  rw [List.mem_filterMap]
  constructor
  · rintro ⟨o, ho, hsome⟩
    exact ⟨o, ho, scanHit_eq_some.mp hsome⟩
  · rintro ⟨o, ho, hcx⟩
    exact ⟨o, ho, scanHit_eq_some.mpr hcx⟩

theorem offs_nonzero : ∀ o ∈ offs, o ≠ ((0 : ℤ), (0 : ℤ)) := by decide

theorem offs_neg : ∀ o ∈ offs, ((-o.1, -o.2) : GKey) ∈ offs := by decide

theorem scanNeighbors_lookup {grids : Grids} {c1 : Cell} {r : ℚ} {x : GKey}
    (hwf : WFg grids) (hx : x ∈ scanNeighbors grids c1 r) :
    ∃ cx, alook grids x = some cx ∧ cx.key = x ∧
      distWithin c1.center cx.center r = true ∧
      ((x.1 - c1.key.1, x.2 - c1.key.2) : GKey) ∈ offs := by
  obtain ⟨o, ho, cx, hcx, hkey, hdist⟩ := mem_scanNeighbors.mp hx
  have hxk : x = (c1.key.1 + o.1, c1.key.2 + o.2) := by
    rw [← hkey]
    exact hwf _ cx hcx
  subst hxk
  refine ⟨cx, hcx, hkey, hdist, ?_⟩
  have hdiff : ((c1.key.1 + o.1 - c1.key.1, c1.key.2 + o.2 - c1.key.2) : GKey) = o := by
    have e1 : c1.key.1 + o.1 - c1.key.1 = o.1 := by omega
    have e2 : c1.key.2 + o.2 - c1.key.2 = o.2 := by omega
    rw [e1, e2]
  rw [hdiff]
  exact ho

theorem scanNeighbors_ne_self {grids : Grids} {c1 : Cell} {r : ℚ} {x : GKey}
    (hwf : WFg grids) (hx : x ∈ scanNeighbors grids c1 r) : x ≠ c1.key := by
  obtain ⟨cx, _, _, _, hoff⟩ := scanNeighbors_lookup hwf hx
  intro he
  apply offs_nonzero _ hoff
  rw [he]
  have e1 : c1.key.1 - c1.key.1 = 0 := by omega
  have e2 : c1.key.2 - c1.key.2 = 0 := by omega
  rw [e1, e2]

theorem scanNeighbors_symm {grids : Grids} {c1 cx : Cell} {r : ℚ} {x : GKey}
    (hwf : WFg grids) (h1 : alook grids c1.key = some c1)
    (hx : x ∈ scanNeighbors grids c1 r) (hcx : alook grids x = some cx) :
    c1.key ∈ scanNeighbors grids cx r := by
  obtain ⟨cx0, hlook0, hkey0, hdist0, hoff0⟩ := scanNeighbors_lookup hwf hx
  have hcx0 : cx0 = cx := by
    rw [hlook0] at hcx
    exact Option.some_inj.mp hcx
  rw [hcx0] at hkey0 hdist0
  rw [mem_scanNeighbors]
  refine ⟨(-(x.1 - c1.key.1), -(x.2 - c1.key.2)), offs_neg _ hoff0, c1, ?_, rfl, ?_⟩
  · have hslot : ((cx.key.1 + -(x.1 - c1.key.1), cx.key.2 + -(x.2 - c1.key.2)) : GKey)
      = c1.key := by
      rw [hkey0]
      have e1 : x.1 + -(x.1 - c1.key.1) = c1.key.1 := by omega
      have e2 : x.2 + -(x.2 - c1.key.2) = c1.key.2 := by omega
      rw [e1, e2]
    rw [hslot]
    exact h1
  · rw [distWithin_symm]
    exact hdist0

/-- The shape of every entry of `merging`: it is keyed by an unvisited
grid cell and lists exactly that cell's neighbour scan. -/
def Pentry (grids : Grids) (r : ℚ) (e : GKey × List GKey) : Prop :=
  ∃ cm, alook grids e.1 = some cm ∧ cm.key = e.1 ∧ e.2 = scanNeighbors grids cm r

theorem findMergingLoop_inv (grids : Grids) (r : ℚ) (hwf : WFg grids) :
    ∀ (todo : List (GKey × Cell)) (vis : List GKey) (mrg : List (GKey × List GKey)),
      (∀ pc ∈ todo, alook grids pc.1 = some pc.2) →
      (∀ e ∈ mrg, Pentry grids r e) →
      (∀ e ∈ mrg, ∀ x ∈ e.2, x ∈ vis) →
      (∀ e ∈ mrg, ∀ e2 ∈ mrg, e.1 ∉ e2.2) →
      (∀ e ∈ (findMergingLoop grids r todo vis mrg).2, Pentry grids r e) ∧
      (∀ e ∈ (findMergingLoop grids r todo vis mrg).2,
        ∀ e2 ∈ (findMergingLoop grids r todo vis mrg).2, e.1 ∉ e2.2) := by
  intro todo
  induction todo with
  | nil =>
    intro vis mrg _ h1 _ h3
    exact ⟨h1, h3⟩
  | cons pc rest ih =>
    intro vis mrg htodo h1 h2 h3
    obtain ⟨p, c1⟩ := pc
    have hp : alook grids p = some c1 := htodo (p, c1) (List.mem_cons_self _ _)
    have hkey : c1.key = p := hwf p c1 hp
    have hlook : alook grids c1.key = some c1 := by rw [hkey]; exact hp
    have htodo' : ∀ pc ∈ rest, alook grids pc.1 = some pc.2 :=
      fun pc hm => htodo pc (List.mem_cons_of_mem _ hm)
    simp only [findMergingLoop]
    by_cases hv : c1.key ∈ vis
    · rw [if_pos hv]
      exact ih vis mrg htodo' h1 h2 h3
    · rw [if_neg hv]
      by_cases hns : scanNeighbors grids c1 r = []
      · rw [if_pos hns]
        exact ih vis mrg htodo' h1 h2 h3
      · rw [if_neg hns]
        refine ih (vis ++ scanNeighbors grids c1 r)
          (mrg ++ [(c1.key, scanNeighbors grids c1 r)]) htodo' ?_ ?_ ?_
        · intro e he
          rcases List.mem_append.mp he with he1 | he1
          · exact h1 e he1
          · have : e = (c1.key, scanNeighbors grids c1 r) := by simpa using he1
            subst this
            exact ⟨c1, hlook, rfl, rfl⟩
        · intro e he x hx
          rcases List.mem_append.mp he with he1 | he1
          · exact List.mem_append_left _ (h2 e he1 x hx)
          · have : e = (c1.key, scanNeighbors grids c1 r) := by simpa using he1
            subst this
            exact List.mem_append_right _ hx
        · intro e he e2 he2
          rcases List.mem_append.mp he with he1 | he1 <;>
            rcases List.mem_append.mp he2 with he21 | he21
          · exact h3 e he1 e2 he21
          · have : e2 = (c1.key, scanNeighbors grids c1 r) := by simpa using he21
            subst this
            intro hmem
            obtain ⟨cm, hcm, hcmk, htks⟩ := h1 e he1
            have hsym : c1.key ∈ scanNeighbors grids cm r := by
              have hcm' : alook grids e.1 = some cm := hcm
              exact scanNeighbors_symm hwf hlook hmem hcm'
            apply hv
            apply h2 e he1 c1.key
            rw [htks]
            exact hsym
          · have : e = (c1.key, scanNeighbors grids c1 r) := by simpa using he1
            subst this
            intro hmem
            exact hv (h2 e2 he21 c1.key hmem)
          · have hh : e = (c1.key, scanNeighbors grids c1 r) := by simpa using he1
            have hh2 : e2 = (c1.key, scanNeighbors grids c1 r) := by simpa using he21
            subst hh
            subst hh2
            intro hmem
            exact scanNeighbors_ne_self hwf hmem rfl

theorem findMerging_facts (grids : Grids) (r : ℚ) (hwf : WFg grids)
    (hnd : NodupKeys grids) :
    (∀ e ∈ (findMerging grids r).2, Pentry grids r e) ∧
    (∀ e ∈ (findMerging grids r).2, ∀ e2 ∈ (findMerging grids r).2, e.1 ∉ e2.2) := by
  unfold findMerging
  refine findMergingLoop_inv grids r hwf grids [] [] ?_ ?_ ?_ ?_
  · intro pc hm
    obtain ⟨k, v⟩ := pc
    exact mem_alook hnd hm
  · intro e he
    cases he
  · intro e he
    cases he
  · intro e he
    cases he

/-! ## The merge execution pass -/

theorem sumCounts_aupd_count_eq {g : Grids} (q : GKey) (f : Cell → Cell)
    (hf : ∀ c, (f c).count = c.count) : sumCounts (aupd q f g) = sumCounts g := by
  cases hq : alook g q with
  | none => rw [aupd_of_none f hq]
  | some c =>
    have := sumCounts_aupd f hq
    have h2 := hf c
    omega

theorem headq_append_left {β : Type} (l l2 : List β) (h : l ≠ []) :
    (l ++ l2).head? = l.head? := by
  cases l with
  | nil => exact absurd rfl h
  | cons a t => rfl

/-- Destructuring a lookup in `aerase tk (aupd mk f g)`. -/
theorem alook_erase_upd {g : Grids} {tk mk : GKey} {f : Cell → Cell} {k : GKey} {c : Cell}
    (h : alook (aerase tk (aupd mk f g)) k = some c) :
    k ≠ tk ∧ ((k = mk ∧ ∃ v, alook g k = some v ∧ c = f v) ∨
      (k ≠ mk ∧ alook g k = some c)) := by
  rw [alook_aerase] at h
  by_cases htk : tk = k
  · rw [if_pos htk] at h
    exact Option.noConfusion h
  · rw [if_neg htk] at h
    rw [alook_aupd] at h
    refine ⟨fun he => htk he.symm, ?_⟩
    by_cases hmk : mk = k
    · rw [if_pos hmk] at h
      cases hv : alook g k with
      | none =>
        rw [hv] at h
        exact Option.noConfusion h
      | some v =>
        rw [hv] at h
        simp only [Option.map_some'] at h
        left
        exact ⟨hmk.symm, v, rfl, (Option.some_inj.mp h).symm⟩
    · rw [if_neg hmk] at h
      right
      exact ⟨fun he => hmk he.symm, h⟩

theorem alook_erase_upd_other {g : Grids} {tk mk : GKey} (f : Cell → Cell) {k : GKey}
    (hk : k ≠ tk) (hk2 : k ≠ mk) :
    alook (aerase tk (aupd mk f g)) k = alook g k := by
  rw [alook_aerase, if_neg (fun he => hk he.symm), alook_aupd,
    if_neg (fun he => hk2 he.symm)]

theorem alook_erase_upd_mk {g : Grids} {tk mk : GKey} (f : Cell → Cell)
    (hne : mk ≠ tk) :
    alook (aerase tk (aupd mk f g)) mk = (alook g mk).map f := by
  rw [alook_aerase, if_neg (fun he => hne (he.symm)), alook_aupd, if_pos rfl]

theorem alook_cmapInit (g : Grids) (k : GKey) :
    alook (cmapInit g) k = (alook g k).map (fun _ => k) := by
  induction g with
  | nil => rfl
  | cons kc t ih =>
    obtain ⟨k0, v⟩ := kc
    simp only [cmapInit, List.map_cons, alook]
    by_cases h0 : k0 = k
    · subst h0
      simp
    · rw [if_neg h0, if_neg h0]
      simpa [cmapInit] using ih

/-- The invariant carried through the merge execution pass, relative to
the pre-merge grid `g0`, the list `S` of merge-source keys and the total
point count `N`. -/
structure MState (g0 : Grids) (S : List GKey) (N : ℕ) (g : Grids) (cm : CMap) : Prop where
  nodup : NodupKeys g
  wf : WFg g
  conserve : sumCounts g = N
  centers : ∀ k c, alook g k = some c → centerOK c
  trace : ∀ k c, alook g k = some c → ∃ c0, alook g0 k = some c0 ∧
    c.parent = c0.parent ∧ c.children.head? = c0.children.head? ∧ c.children ≠ []
  keysup : ∀ k c, alook g k = some c → ∃ j, alook cm k = some j
  alive : ∀ k j, alook cm k = some j → ∃ c, alook g j = some c
  targets : ∀ k j, alook cm k = some j → j = k ∨ j ∈ S

/-- The weakened invariant holding inside one entry's absorb loop, while
the surviving cell `mk` has a stale `center`. -/
structure AState (g0 : Grids) (S : List GKey) (N : ℕ) (mk : GKey) (g : Grids)
    (cm : CMap) : Prop where
  nodup : NodupKeys g
  wf : WFg g
  conserve : sumCounts g = N
  centers : ∀ k c, k ≠ mk → alook g k = some c → centerOK c
  trace : ∀ k c, alook g k = some c → ∃ c0, alook g0 k = some c0 ∧
    c.parent = c0.parent ∧ c.children.head? = c0.children.head? ∧ c.children ≠ []
  keysup : ∀ k c, alook g k = some c → ∃ j, alook cm k = some j
  alive : ∀ k j, alook cm k = some j → ∃ c, alook g j = some c
  targets : ∀ k j, alook cm k = some j → j = k ∨ j ∈ S
  mkalive : ∃ c, alook g mk = some c

theorem absorbOne_astep {g0 : Grids} {S : List GKey} {N : ℕ} {mk : GKey}
    {gm : Grids × CMap} {tk : GKey}
    (h : AState g0 S N mk gm.1 gm.2)
    (hne : tk ≠ mk) (hnotS : tk ∉ S) (hmkS : mk ∈ S) :
    AState g0 S N mk (absorbOne mk gm tk).1 (absorbOne mk gm tk).2 := by
  unfold absorbOne
  split
  · exact h
  · next tv htv =>
    have hmt : mk ≠ tk := fun he => hne he.symm
    obtain ⟨cmk, hcmk⟩ := h.mkalive
    constructor
    · exact nodup_aerase _ (nodup_aupd _ _ h.nodup)
    · intro k c hkc
      obtain ⟨hktk, hcase⟩ := alook_erase_upd hkc
      rcases hcase with ⟨hkmk, v, hv, hcv⟩ | ⟨hkmk, hv⟩
      · subst hcv
        show (absorbFun tv v).key = k
        show v.key = k
        exact h.wf _ _ hv
      · exact h.wf _ _ hv
    · have h1 : sumCounts (aupd mk (absorbFun tv) gm.1) = sumCounts gm.1 + tv.count :=
        sumCounts_aupd_add _ hcmk tv.count rfl
      have h2 : alook (aupd mk (absorbFun tv) gm.1) tk = some tv := by
        rw [alook_aupd, if_neg hmt]
        exact htv
      have h3 := sumCounts_aerase (nodup_aupd _ _ h.nodup) h2
      have h4 := h.conserve
      show sumCounts (aerase tk (aupd mk (absorbFun tv) gm.1)) = N
      omega
    · intro k c hk hkc
      obtain ⟨hktk, hcase⟩ := alook_erase_upd hkc
      rcases hcase with ⟨hkmk, v, hv, hcv⟩ | ⟨hkmk, hv⟩
      · exact absurd hkmk hk
      · exact h.centers _ _ hk hv
    · intro k c hkc
      obtain ⟨hktk, hcase⟩ := alook_erase_upd hkc
      rcases hcase with ⟨hkmk, v, hv, hcv⟩ | ⟨hkmk, hv⟩
      · subst hcv
        obtain ⟨c0, hc0, hpar, hhead, hnil⟩ := h.trace _ _ hv
        refine ⟨c0, hc0, hpar, ?_, ?_⟩
        · show (v.children ++ tv.children).head? = c0.children.head?
          rw [headq_append_left _ _ hnil]
          exact hhead
        · show v.children ++ tv.children ≠ []
          intro hemp
          exact hnil (List.append_eq_nil.mp hemp).1
      · exact h.trace _ _ hv
    · intro k c hkc
      obtain ⟨hktk, hcase⟩ := alook_erase_upd hkc
      have hgk : ∃ w, alook gm.1 k = some w := by
        rcases hcase with ⟨hkmk, v, hv, _⟩ | ⟨_, hv⟩
        · exact ⟨v, hv⟩
        · exact ⟨c, hv⟩
      obtain ⟨w, hw⟩ := hgk
      obtain ⟨j, hj⟩ := h.keysup _ _ hw
      refine ⟨j, ?_⟩
      rw [alook_aset, if_neg (fun he => hktk he.symm)]
      exact hj
    · intro k j hkj
      rw [alook_aset] at hkj
      by_cases htkk : tk = k
      · rw [if_pos htkk] at hkj
        injection hkj with hj
        subst hj
        refine ⟨absorbFun tv cmk, ?_⟩
        rw [alook_erase_upd_mk _ hmt, hcmk]
        rfl
      · rw [if_neg htkk] at hkj
        obtain ⟨c, hc⟩ := h.alive _ _ hkj
        have hjtk : j ≠ tk := by
          intro he
          subst he
          rcases h.targets _ _ hkj with hjk | hjS
          · exact htkk hjk
          · exact hnotS hjS
        by_cases hjmk : j = mk
        · subst hjmk
          refine ⟨absorbFun tv cmk, ?_⟩
          rw [alook_erase_upd_mk _ hmt, hcmk]
          rfl
        · refine ⟨c, ?_⟩
          rw [alook_erase_upd_other _ hjtk hjmk]
          exact hc
    · intro k j hkj
      rw [alook_aset] at hkj
      by_cases htkk : tk = k
      · rw [if_pos htkk] at hkj
        injection hkj with hj
        subst hj
        right
        exact hmkS
      · rw [if_neg htkk] at hkj
        exact h.targets _ _ hkj
    · refine ⟨absorbFun tv cmk, ?_⟩
      rw [alook_erase_upd_mk _ hmt, hcmk]
      rfl

theorem absorbFold_astep {g0 : Grids} {S : List GKey} {N : ℕ} {mk : GKey} :
    ∀ (tks : List GKey) (gm : Grids × CMap),
      (∀ tk ∈ tks, tk ≠ mk ∧ tk ∉ S) → mk ∈ S →
      AState g0 S N mk gm.1 gm.2 →
      AState g0 S N mk ((tks.foldl (absorbOne mk) gm).1)
        ((tks.foldl (absorbOne mk) gm).2) := by
  intro tks
  induction tks with
  | nil =>
    intro gm _ _ h
    exact h
  | cons tk rest ih =>
    intro gm htks hmkS h
    simp only [List.foldl_cons]
    refine ih _ (fun t ht => htks t (List.mem_cons_of_mem _ ht)) hmkS ?_
    exact absorbOne_astep h (htks tk (List.mem_cons_self _ _)).1
      (htks tk (List.mem_cons_self _ _)).2 hmkS

theorem mergeEntry_mstep {g0 : Grids} {S : List GKey} {N : ℕ} {gm : Grids × CMap}
    {e : GKey × List GKey}
    (h : MState g0 S N gm.1 gm.2)
    (he1 : e.1 ∈ S) (he2 : ∀ tk ∈ e.2, tk ≠ e.1 ∧ tk ∉ S) :
    MState g0 S N (mergeEntry gm e).1 (mergeEntry gm e).2 := by
  unfold mergeEntry
  split
  · exact h
  · next c00 hc00 =>
    have ha : AState g0 S N e.1 gm.1 gm.2 :=
      ⟨h.nodup, h.wf, h.conserve, fun k c _ hkc => h.centers k c hkc, h.trace,
       h.keysup, h.alive, h.targets, ⟨c00, hc00⟩⟩
    have ha2 := absorbFold_astep e.2 gm he2 he1 ha
    constructor
    · exact nodup_aupd _ _ ha2.nodup
    · intro k c hkc
      rw [alook_aupd] at hkc
      by_cases hk : e.1 = k
      · rw [if_pos hk] at hkc
        cases hv : alook ((e.2.foldl (absorbOne e.1) gm).1) k with
        | none =>
          rw [hv] at hkc
          exact Option.noConfusion hkc
        | some v =>
          rw [hv] at hkc
          simp only [Option.map_some'] at hkc
          have hcv : c = centerFun v := (Option.some_inj.mp hkc).symm
          subst hcv
          show v.key = k
          exact ha2.wf _ _ hv
      · rw [if_neg hk] at hkc
        exact ha2.wf _ _ hkc
    · show sumCounts (aupd e.1 centerFun (e.2.foldl (absorbOne e.1) gm).1) = N
      rw [sumCounts_aupd_count_eq _ centerFun (fun c => rfl)]
      exact ha2.conserve
    · intro k c hkc
      rw [alook_aupd] at hkc
      by_cases hk : e.1 = k
      · rw [if_pos hk] at hkc
        cases hv : alook ((e.2.foldl (absorbOne e.1) gm).1) k with
        | none =>
          rw [hv] at hkc
          exact Option.noConfusion hkc
        | some v =>
          rw [hv] at hkc
          simp only [Option.map_some'] at hkc
          have hcv : c = centerFun v := (Option.some_inj.mp hkc).symm
          subst hcv
          unfold centerOK centerFun cmulq
          simp only [Prod.mk.injEq]
          constructor <;> rw [one_div_mul_eq_div]
      · rw [if_neg hk] at hkc
        exact ha2.centers _ _ (fun he => hk he.symm) hkc
    · intro k c hkc
      rw [alook_aupd] at hkc
      by_cases hk : e.1 = k
      · rw [if_pos hk] at hkc
        cases hv : alook ((e.2.foldl (absorbOne e.1) gm).1) k with
        | none =>
          rw [hv] at hkc
          exact Option.noConfusion hkc
        | some v =>
          rw [hv] at hkc
          simp only [Option.map_some'] at hkc
          have hcv : c = centerFun v := (Option.some_inj.mp hkc).symm
          subst hcv
          obtain ⟨c0, hc0, hpar, hhead, hnil⟩ := ha2.trace _ _ hv
          exact ⟨c0, hc0, hpar, hhead, hnil⟩
      · rw [if_neg hk] at hkc
        exact ha2.trace _ _ hkc
    · intro k c hkc
      rw [alook_aupd] at hkc
      by_cases hk : e.1 = k
      · rw [if_pos hk] at hkc
        cases hv : alook ((e.2.foldl (absorbOne e.1) gm).1) k with
        | none =>
          rw [hv] at hkc
          exact Option.noConfusion hkc
        | some v =>
          exact ha2.keysup _ _ hv
      · rw [if_neg hk] at hkc
        exact ha2.keysup _ _ hkc
    · intro k j hkj
      obtain ⟨c, hc⟩ := ha2.alive _ _ hkj
      rw [show (aupd e.1 centerFun (e.2.foldl (absorbOne e.1) gm).1,
            (e.2.foldl (absorbOne e.1) gm).2).1
          = aupd e.1 centerFun (e.2.foldl (absorbOne e.1) gm).1 from rfl]
      rw [alook_aupd]
      by_cases hj : e.1 = j
      · rw [if_pos hj, hc]
        exact ⟨centerFun c, rfl⟩
      · rw [if_neg hj]
        exact ⟨c, hc⟩
    · intro k j hkj
      exact ha2.targets _ _ hkj

theorem mergeFold_mstep {g0 : Grids} {S : List GKey} {N : ℕ} :
    ∀ (entries : List (GKey × List GKey)) (gm : Grids × CMap),
      (∀ e ∈ entries, e.1 ∈ S ∧ ∀ tk ∈ e.2, tk ≠ e.1 ∧ tk ∉ S) →
      MState g0 S N gm.1 gm.2 →
      MState g0 S N ((entries.foldl mergeEntry gm).1) ((entries.foldl mergeEntry gm).2) := by
  intro entries
  induction entries with
  | nil =>
    intro gm _ h
    exact h
  | cons e rest ih =>
    intro gm hents h
    simp only [List.foldl_cons]
    refine ih _ (fun e2 he2 => hents e2 (List.mem_cons_of_mem _ he2)) ?_
    exact mergeEntry_mstep h (hents e (List.mem_cons_self _ _)).1
      (hents e (List.mem_cons_self _ _)).2

theorem mergedState_MState (g0 : Grids) (r : ℚ) (hb : BucketInv g0) :
    MState g0 (((findMerging g0 r).2).map Prod.fst) (sumCounts g0)
      (mergedState g0 r).1 (mergedState g0 r).2 := by
  obtain ⟨hnd, hwf, hc, hch⟩ := hb
  obtain ⟨hP1, hP2⟩ := findMerging_facts g0 r hwf hnd
  unfold mergedState
  apply mergeFold_mstep
  · intro e he
    refine ⟨List.mem_map_of_mem Prod.fst he, ?_⟩
    intro tk htk
    obtain ⟨cm, hcm, hcmk, htks⟩ := hP1 e he
    constructor
    · rw [htks] at htk
      have := scanNeighbors_ne_self hwf htk
      rw [hcmk] at this
      exact this
    · intro htkS
      obtain ⟨e2, he2, he2k⟩ := List.mem_map.mp htkS
      have := hP2 e2 he2 e he
      rw [he2k] at this
      exact this htk
  · constructor
    · exact hnd
    · exact hwf
    · rfl
    · exact hc
    · intro k c hkc
      exact ⟨c, hkc, rfl, rfl, hch _ _ hkc⟩
    · intro k c hkc
      refine ⟨k, ?_⟩
      show alook (cmapInit g0) k = some k
      rw [alook_cmapInit, hkc]
      rfl
    · intro k j hkj
      rw [show (g0, cmapInit g0).2 = cmapInit g0 from rfl, alook_cmapInit] at hkj
      cases hv : alook g0 k with
      | none =>
        rw [hv] at hkj
        exact Option.noConfusion hkj
      | some v =>
        rw [hv] at hkj
        simp only [Option.map_some'] at hkj
        have : j = k := (Option.some_inj.mp hkj).symm
        subst this
        exact ⟨v, hv⟩
    · intro k j hkj
      rw [show (g0, cmapInit g0).2 = cmapInit g0 from rfl, alook_cmapInit] at hkj
      cases hv : alook g0 k with
      | none =>
        rw [hv] at hkj
        exact Option.noConfusion hkj
      | some v =>
        rw [hv] at hkj
        simp only [Option.map_some'] at hkj
        left
        exact (Option.some_inj.mp hkj).symm

/-! ## Results about a full level computation -/

theorem bucketGrids_bucketInv (env : ClusterEnv) (e : Extent) (z : ℤ)
    (pc : Option LevelResult) : BucketInv (bucketGrids env e z pc) :=
  bucketFold_inv env.useProp (extMin e) (cellSize env z) (preTOf env z) pc
    (markerPoints env) [] bucketInv_nil

theorem bucketGrids_sum (env : ClusterEnv) (e : Extent) (z : ℤ)
    (pc : Option LevelResult) :
    sumCounts (bucketGrids env e z pc) = (markerPoints env).length := by
  unfold bucketGrids
  rw [bucketFold_sum]
  simp [sumCounts]

theorem computeZoomBody_fst {env : ClusterEnv}
    {recur : ℤ → Cache → Option LevelResult × Cache} {z : ℤ} {cache : Cache}
    {lr : LevelResult}
    (h : (computeZoomBody env recur z cache).1 = some lr) :
    ∃ e pc, markerExtent env = some e ∧
      lr = mergeClusters (bucketGrids env e z pc) (cellSize env z / 2) := by
  unfold computeZoomBody at h
  split at h
  · exact Option.noConfusion h
  · next e he =>
    refine ⟨e, (preResult env recur z cache).1, he, ?_⟩
    exact (Option.some_inj.mp h).symm

theorem computeZoomGridAux_fst {env : ClusterEnv} {fuel : ℕ} {z : ℤ} {cache : Cache}
    {lr : LevelResult}
    (h : (computeZoomGridAux env fuel z cache).1 = some lr) :
    ∃ e pc, markerExtent env = some e ∧
      lr = mergeClusters (bucketGrids env e z pc) (cellSize env z / 2) := by
  cases fuel with
  | zero => exact computeZoomBody_fst h
  | succ f => exact computeZoomBody_fst h

/-- A claim C1 instance environment: three visible points. -/
def envC1 : ClusterEnv :=
  { geos := [⟨0, 0, 0, 0, true⟩, ⟨1, 0, 1, 0, true⟩, ⟨100, 100, 2, 0, true⟩]
    res := fun _ => 1
    radius := 10
    useProp := false
    minZoom := 3
    maxZoom := 5
    totalCount := 3 }

/-- The level result that `_computeZoomGrid` produces for `envC1`. -/
def lrC1 : LevelResult :=
  ⟨[(((0 : ℤ), (0 : ℤ)),
     { sum := (1, 0), center := (1 / 2, 0), count := 2, textSumProperty := 0,
       children := [0, 1], key := (0, 0), parent := none }),
    (((10 : ℤ), (10 : ℤ)),
     { sum := (100, 100), center := (100, 100), count := 1, textSumProperty := 0,
       children := [2], key := (10, 10), parent := none })],
   [(((0 : ℤ), (0 : ℤ)), ((0 : ℤ), (0 : ℤ))),
    (((10 : ℤ), (10 : ℤ)), ((10 : ℤ), (10 : ℤ)))]⟩

/-- C1: for every resolution level computed by `_computeZoomGrid`
followed by `_mergeClusters`, the sum of `count` over all clusters in the
returned `clusters` mapping equals the total number of indexed points
(the length of `_markerPoints`), for every input point set and
configuration. -/
theorem claim_C1_conservation (env : ClusterEnv) (fuel : ℕ) (z : ℤ) (cache : Cache)
    (lr : LevelResult) (h : (computeZoomGridAux env fuel z cache).1 = some lr) :
    sumCounts lr.clusters = (markerPoints env).length := by
  obtain ⟨e, pc, hext, hlr⟩ := computeZoomGridAux_fst h
  subst hlr
  have hms := mergedState_MState (bucketGrids env e z pc) (cellSize env z / 2)
    (bucketGrids_bucketInv env e z pc)
  have h1 : sumCounts (mergeClusters (bucketGrids env e z pc) (cellSize env z / 2)).clusters
      = sumCounts (bucketGrids env e z pc) := hms.conserve
  rw [h1, bucketGrids_sum]

theorem claim_C1_conservation_witness :
    sumCounts lrC1.clusters = (markerPoints envC1).length :=
  claim_C1_conservation envC1 0 3 [] lrC1 (by
    norm_num [computeZoomGridAux, computeZoomBody, preResult, markerExtent,
      markerPoints, initGridSystem, bucketGrids, addPoint, alook, bucketKey, cellSize,
      preTOf, extMin, mergeClusters, mergedState, cmapInit, findMerging, findMergingLoop,
      scanNeighbors, scanHit, offs, mergeEntry, absorbOne, absorbFun, centerFun, aupd,
      aerase, aset, distWithin, cadd, cmulq, parentOfPoint, extCombine, geoExtent, clook,
      cset, Prod.ext_iff, envC1, lrC1])

/-- A throwaway cell used only as a `getD` default. -/
def junkCell : Cell :=
  { sum := (0, 0), center := (0, 0), count := 0, textSumProperty := 0,
    children := [], key := (0, 0), parent := none }

/-- A claim C2 instance environment: two points sharing a cell. -/
def envC2 : ClusterEnv :=
  { geos := [⟨0, 0, 0, 0, true⟩, ⟨1, 0, 1, 0, true⟩]
    res := fun _ => 1
    radius := 10
    useProp := false
    minZoom := 3
    maxZoom := 5
    totalCount := 2 }

def cC2 : Cell :=
  { sum := (1, 0), center := (1 / 2, 0), count := 2, textSumProperty := 0,
    children := [0, 1], key := (0, 0), parent := none }

def lrC2 : LevelResult := ⟨[(((0 : ℤ), (0 : ℤ)), cC2)], [(((0 : ℤ), (0 : ℤ)), ((0 : ℤ), (0 : ℤ)))]⟩

/-- C2: for every cluster in a level's result, its `center` equals its
coordinate `sum` divided by its `count` (the arithmetic mean of its
members' coordinates); the merge pass re-establishes this equality by
recomputing `center = sum * (1 / count)` after absorbing an entry's
neighbours, so it holds of every cluster in the final `clusters` map. -/
theorem claim_C2_centroid (env : ClusterEnv) (fuel : ℕ) (z : ℤ) (cache : Cache)
    (lr : LevelResult) (k : GKey) (c : Cell)
    (h : (computeZoomGridAux env fuel z cache).1 = some lr)
    (hk : alook lr.clusters k = some c) :
    c.center = (c.sum.1 / (c.count : ℚ), c.sum.2 / (c.count : ℚ)) := by
  obtain ⟨e, pc, hext, hlr⟩ := computeZoomGridAux_fst h
  subst hlr
  have hms := mergedState_MState (bucketGrids env e z pc) (cellSize env z / 2)
    (bucketGrids_bucketInv env e z pc)
  have hco := hms.centers k c hk
  unfold centerOK at hco
  exact hco

theorem claim_C2_centroid_witness :
    cC2.center = (cC2.sum.1 / (cC2.count : ℚ), cC2.sum.2 / (cC2.count : ℚ)) :=
  claim_C2_centroid envC2 0 3 [] lrC2 ((0 : ℤ), (0 : ℤ)) cC2 (by
    norm_num [computeZoomGridAux, computeZoomBody, preResult, markerExtent,
      markerPoints, initGridSystem, bucketGrids, addPoint, alook, bucketKey, cellSize,
      preTOf, extMin, mergeClusters, mergedState, cmapInit, findMerging, findMergingLoop,
      scanNeighbors, scanHit, offs, mergeEntry, absorbOne, absorbFun, centerFun, aupd,
      aerase, aset, distWithin, cadd, cmulq, parentOfPoint, extCombine, geoExtent, clook,
      cset, Prod.ext_iff, envC2, lrC2, cC2]) rfl

/-- A claim C3 instance environment: the cell keyed `(1, 0)` is absorbed
into the cell keyed `(0, 0)` during merging. -/
def envC3 : ClusterEnv :=
  { geos := [⟨0, 0, 0, 0, true⟩, ⟨9, 0, 1, 0, true⟩, ⟨9, 0, 2, 0, true⟩,
             ⟨21 / 2, 0, 3, 0, true⟩]
    res := fun _ => 1
    radius := 10
    useProp := false
    minZoom := 3
    maxZoom := 5
    totalCount := 4 }

def lrC3 : LevelResult :=
  ⟨[(((0 : ℤ), (0 : ℤ)),
     { sum := (57 / 2, 0), center := (57 / 8, 0), count := 4, textSumProperty := 0,
       children := [0, 1, 2, 3], key := (0, 0), parent := none })],
   [(((0 : ℤ), (0 : ℤ)), ((0 : ℤ), (0 : ℤ))), (((1 : ℤ), (0 : ℤ)), ((0 : ℤ), (0 : ℤ)))]⟩

/-- C3: in every `LevelResult` produced by `_mergeClusters`, the keys of
`clusterMap` are a superset of the keys of `clusters`, and every cell key
(including every absorbed one) maps in `clusterMap` to a cluster that
survives in `clusters` — never to an object that was itself absorbed by a
later merge (no transitive aliasing chains). -/
theorem claim_C3_aliasing (env : ClusterEnv) (fuel : ℕ) (z : ℤ) (cache : Cache)
    (lr : LevelResult) (h : (computeZoomGridAux env fuel z cache).1 = some lr) :
    (∀ k c, alook lr.clusters k = some c → ∃ j, alook lr.clusterMap k = some j) ∧
    (∀ k j, alook lr.clusterMap k = some j → ∃ c, alook lr.clusters j = some c) := by
  obtain ⟨e, pc, hext, hlr⟩ := computeZoomGridAux_fst h
  subst hlr
  have hms := mergedState_MState (bucketGrids env e z pc) (cellSize env z / 2)
    (bucketGrids_bucketInv env e z pc)
  exact ⟨hms.keysup, hms.alive⟩

/-- The evaluation of `_computeZoomGrid` on `envC3`. -/
theorem eval_envC3 : (computeZoomGridAux envC3 0 3 []).1 = some lrC3 := by
  have hext : markerExtent envC3 = some ⟨0, 0, 21 / 2, 0⟩ := by
    norm_num [markerExtent, initGridSystem, envC3, geoExtent, extCombine]
  have hbg : bucketGrids envC3 ⟨0, 0, 21 / 2, 0⟩ 3 none
      = [(((0 : ℤ), (0 : ℤ)), { sum := (18, 0), center := (6, 0), count := 3, textSumProperty := 0, children := [0, 1, 2], key := (0, 0), parent := none }),
        (((1 : ℤ), (0 : ℤ)), { sum := (21 / 2, 0), center := (21 / 2, 0), count := 1, textSumProperty := 0, children := [3], key := (1, 0), parent := none })] := by
    norm_num [bucketGrids, markerPoints, initGridSystem, envC3, geoExtent, extCombine,
      addPoint, alook, bucketKey, cellSize, preTOf, extMin, cadd, cmulq, parentOfPoint,
      aupd, Prod.ext_iff]
  have hC3s1o1 : scanHit
      [(((0 : ℤ), (0 : ℤ)), { sum := (18, 0), center := (6, 0), count := 3, textSumProperty := 0, children := [0, 1, 2], key := (0, 0), parent := none }),
        (((1 : ℤ), (0 : ℤ)), { sum := (21 / 2, 0), center := (21 / 2, 0), count := 1, textSumProperty := 0, children := [3], key := (1, 0), parent := none })]
      { sum := (18, 0), center := (6, 0), count := 3, textSumProperty := 0, children := [0, 1, 2], key := (0, 0), parent := none } (5) (-1, -1)
      = none := by
    norm_num [scanHit, alook, distWithin, Prod.ext_iff, -Prod.mk_zero_zero, -Prod.mk_one_one]
  have hC3s1o2 : scanHit
      [(((0 : ℤ), (0 : ℤ)), { sum := (18, 0), center := (6, 0), count := 3, textSumProperty := 0, children := [0, 1, 2], key := (0, 0), parent := none }),
        (((1 : ℤ), (0 : ℤ)), { sum := (21 / 2, 0), center := (21 / 2, 0), count := 1, textSumProperty := 0, children := [3], key := (1, 0), parent := none })]
      { sum := (18, 0), center := (6, 0), count := 3, textSumProperty := 0, children := [0, 1, 2], key := (0, 0), parent := none } (5) (-1, 0)
      = none := by
    norm_num [scanHit, alook, distWithin, Prod.ext_iff, -Prod.mk_zero_zero, -Prod.mk_one_one]
  have hC3s1o3 : scanHit
      [(((0 : ℤ), (0 : ℤ)), { sum := (18, 0), center := (6, 0), count := 3, textSumProperty := 0, children := [0, 1, 2], key := (0, 0), parent := none }),
        (((1 : ℤ), (0 : ℤ)), { sum := (21 / 2, 0), center := (21 / 2, 0), count := 1, textSumProperty := 0, children := [3], key := (1, 0), parent := none })]
      { sum := (18, 0), center := (6, 0), count := 3, textSumProperty := 0, children := [0, 1, 2], key := (0, 0), parent := none } (5) (-1, 1)
      = none := by
    norm_num [scanHit, alook, distWithin, Prod.ext_iff, -Prod.mk_zero_zero, -Prod.mk_one_one]
  have hC3s1o4 : scanHit
      [(((0 : ℤ), (0 : ℤ)), { sum := (18, 0), center := (6, 0), count := 3, textSumProperty := 0, children := [0, 1, 2], key := (0, 0), parent := none }),
        (((1 : ℤ), (0 : ℤ)), { sum := (21 / 2, 0), center := (21 / 2, 0), count := 1, textSumProperty := 0, children := [3], key := (1, 0), parent := none })]
      { sum := (18, 0), center := (6, 0), count := 3, textSumProperty := 0, children := [0, 1, 2], key := (0, 0), parent := none } (5) (0, -1)
      = none := by
    norm_num [scanHit, alook, distWithin, Prod.ext_iff, -Prod.mk_zero_zero, -Prod.mk_one_one]
  have hC3s1o5 : scanHit
      [(((0 : ℤ), (0 : ℤ)), { sum := (18, 0), center := (6, 0), count := 3, textSumProperty := 0, children := [0, 1, 2], key := (0, 0), parent := none }),
        (((1 : ℤ), (0 : ℤ)), { sum := (21 / 2, 0), center := (21 / 2, 0), count := 1, textSumProperty := 0, children := [3], key := (1, 0), parent := none })]
      { sum := (18, 0), center := (6, 0), count := 3, textSumProperty := 0, children := [0, 1, 2], key := (0, 0), parent := none } (5) (0, 1)
      = none := by
    norm_num [scanHit, alook, distWithin, Prod.ext_iff, -Prod.mk_zero_zero, -Prod.mk_one_one]
  have hC3s1o6 : scanHit
      [(((0 : ℤ), (0 : ℤ)), { sum := (18, 0), center := (6, 0), count := 3, textSumProperty := 0, children := [0, 1, 2], key := (0, 0), parent := none }),
        (((1 : ℤ), (0 : ℤ)), { sum := (21 / 2, 0), center := (21 / 2, 0), count := 1, textSumProperty := 0, children := [3], key := (1, 0), parent := none })]
      { sum := (18, 0), center := (6, 0), count := 3, textSumProperty := 0, children := [0, 1, 2], key := (0, 0), parent := none } (5) (1, -1)
      = none := by
    norm_num [scanHit, alook, distWithin, Prod.ext_iff, -Prod.mk_zero_zero, -Prod.mk_one_one]
  have hC3s1o7 : scanHit
      [(((0 : ℤ), (0 : ℤ)), { sum := (18, 0), center := (6, 0), count := 3, textSumProperty := 0, children := [0, 1, 2], key := (0, 0), parent := none }),
        (((1 : ℤ), (0 : ℤ)), { sum := (21 / 2, 0), center := (21 / 2, 0), count := 1, textSumProperty := 0, children := [3], key := (1, 0), parent := none })]
      { sum := (18, 0), center := (6, 0), count := 3, textSumProperty := 0, children := [0, 1, 2], key := (0, 0), parent := none } (5) (1, 0)
      = some ((1 : ℤ), (0 : ℤ)) := by
    norm_num [scanHit, alook, distWithin, Prod.ext_iff, -Prod.mk_zero_zero, -Prod.mk_one_one]
  have hC3s1o8 : scanHit
      [(((0 : ℤ), (0 : ℤ)), { sum := (18, 0), center := (6, 0), count := 3, textSumProperty := 0, children := [0, 1, 2], key := (0, 0), parent := none }),
        (((1 : ℤ), (0 : ℤ)), { sum := (21 / 2, 0), center := (21 / 2, 0), count := 1, textSumProperty := 0, children := [3], key := (1, 0), parent := none })]
      { sum := (18, 0), center := (6, 0), count := 3, textSumProperty := 0, children := [0, 1, 2], key := (0, 0), parent := none } (5) (1, 1)
      = none := by
    norm_num [scanHit, alook, distWithin, Prod.ext_iff, -Prod.mk_zero_zero, -Prod.mk_one_one]
  have hC3s1scan : scanNeighbors
      [(((0 : ℤ), (0 : ℤ)), { sum := (18, 0), center := (6, 0), count := 3, textSumProperty := 0, children := [0, 1, 2], key := (0, 0), parent := none }),
        (((1 : ℤ), (0 : ℤ)), { sum := (21 / 2, 0), center := (21 / 2, 0), count := 1, textSumProperty := 0, children := [3], key := (1, 0), parent := none })]
      { sum := (18, 0), center := (6, 0), count := 3, textSumProperty := 0, children := [0, 1, 2], key := (0, 0), parent := none } (5)
      = [((1 : ℤ), (0 : ℤ))] := by
    rw [scanNeighbors, offs]
    rw [List.filterMap_cons_none hC3s1o1,
      List.filterMap_cons_none hC3s1o2,
      List.filterMap_cons_none hC3s1o3,
      List.filterMap_cons_none hC3s1o4,
      List.filterMap_cons_none hC3s1o5,
      List.filterMap_cons_none hC3s1o6,
      List.filterMap_cons_some hC3s1o7,
      List.filterMap_cons_none hC3s1o8]
    rfl
  have hC3fm : findMerging
      [(((0 : ℤ), (0 : ℤ)), { sum := (18, 0), center := (6, 0), count := 3, textSumProperty := 0, children := [0, 1, 2], key := (0, 0), parent := none }),
        (((1 : ℤ), (0 : ℤ)), { sum := (21 / 2, 0), center := (21 / 2, 0), count := 1, textSumProperty := 0, children := [3], key := (1, 0), parent := none })] (5)
      = ([((1 : ℤ), (0 : ℤ))], [(((0 : ℤ), (0 : ℤ)), [((1 : ℤ), (0 : ℤ))])]) := by
    norm_num [findMerging, findMergingLoop, hC3s1scan, Prod.ext_iff, -Prod.mk_zero_zero, -Prod.mk_one_one]
  have hC3mc : mergeClusters
      [(((0 : ℤ), (0 : ℤ)), { sum := (18, 0), center := (6, 0), count := 3, textSumProperty := 0, children := [0, 1, 2], key := (0, 0), parent := none }),
        (((1 : ℤ), (0 : ℤ)), { sum := (21 / 2, 0), center := (21 / 2, 0), count := 1, textSumProperty := 0, children := [3], key := (1, 0), parent := none })] (5)
      = lrC3 := by
    simp only [mergeClusters, mergedState, hC3fm]
    norm_num [cmapInit, mergeEntry, absorbOne, absorbFun, centerFun, alook, aupd,
      aerase, aset, lrC3, Prod.ext_iff, cadd, cmulq, -Prod.mk_zero_zero, -Prod.mk_one_one]
  show (computeZoomBody envC3 (fun _ cache => (none, cache)) 3 []).1 = some lrC3
  rw [computeZoomBody, hext]
  have hpre : (preResult envC3 (fun _ cache => (none, cache)) 3 []).1 = none := by
    norm_num [preResult, clook, envC3, cset]
  simp only [hpre]
  have hcell : cellSize envC3 3 / 2 = 5 := by norm_num [cellSize, envC3]
  rw [hcell, hbg, hC3mc]

theorem claim_C3_aliasing_witness :
    (alook lrC3.clusters ((0 : ℤ), (0 : ℤ))).isSome = true := by
  obtain ⟨c, hc⟩ := (claim_C3_aliasing envC3 0 3 [] lrC3 eval_envC3).2
    ((1 : ℤ), (0 : ℤ)) ((0 : ℤ), (0 : ℤ)) rfl
  rw [hc]
  rfl

/-! ## Claims C7 to C10 -/

theorem clook_cset (q : ℤ) (v : Option LevelResult) (c : Cache) (k : ℤ) :
    clook (cset q v c) k = if q = k then some v else clook c k := by
  induction c with
  | nil => simp [cset, clook]
  | cons zc t ih =>
    obtain ⟨z0, v0⟩ := zc
    simp only [cset]
    by_cases h0 : z0 = q
    · subst h0
      by_cases hk : z0 = k
      · subst hk
        simp [clook]
      · simp [clook, hk]
    · have hq0 : ¬q = z0 := fun h => h0 h.symm
      simp only [if_neg h0, clook]
      by_cases hk : z0 = k
      · subst hk
        simp [hq0]
      · simp [hk, ih]

/-- A claim C7 instance environment: a single invisible geometry, so no
point is indexed and no extent exists. -/
def envC7 : ClusterEnv :=
  { geos := [⟨1, 2, 0, 0, false⟩]
    res := fun _ => 1
    radius := 10
    useProp := false
    minZoom := 0
    maxZoom := 10
    totalCount := 1 }

/-- C7: when the feature set is empty (no visible points were indexed, so
no marker extent exists), requesting a level's clusters returns an empty
result with zero clusters for every level (`_computeZoomGrid` returns the
JS `null`, the draw path sees no truthy cache entry and iterates zero
cluster entries), and no error is raised (every function is total). -/
theorem claim_C7_empty (env : ClusterEnv) (fuel : ℕ) (z : ℤ)
    (h : markerExtent env = none) :
    (computeZoomGridAux env fuel z []).1 = none ∧
    zoomClustersOf (computeGrid env fuel z []) z = none ∧
    drawnClusterEntries (zoomClustersOf (computeGrid env fuel z []) z) = [] := by
  have haux : ∀ cache, (computeZoomGridAux env fuel z cache).1 = none := by
    intro cache
    cases fuel with
    | zero =>
      show (computeZoomBody env (fun _ cache => (none, cache)) z cache).1 = none
      rw [computeZoomBody, h]
    | succ f =>
      show (computeZoomBody env (computeZoomGridAux env f) z cache).1 = none
      rw [computeZoomBody, h]
  have hcar : cacheAfterReuse env z [] = [] := by
    rw [cacheAfterReuse]
    have : reuseCond (clook [] (preZoom env z)) env.totalCount = false := by
      rw [show clook ([] : Cache) (preZoom env z) = none from rfl]
      rfl
    rw [this]
    simp
  have hcg : computeGrid env fuel z []
      = cset z (computeZoomGridAux env fuel z []).1 (computeZoomGridAux env fuel z []).2 := by
    rw [computeGrid, hcar]
    rfl
  have hz : zoomClustersOf (computeGrid env fuel z []) z = none := by
    rw [hcg, zoomClustersOf, clook_cset, if_pos rfl, haux]
  exact ⟨haux [], hz, by rw [hz]; rfl⟩

theorem claim_C7_empty_witness :
    (computeZoomGridAux envC7 2 5 []).1 = none ∧
    zoomClustersOf (computeGrid envC7 2 5 []) 5 = none ∧
    drawnClusterEntries (zoomClustersOf (computeGrid envC7 2 5 []) 5) = [] :=
  claim_C7_empty envC7 2 5 rfl

/-- C8: the renderer's `identify` performs a linear scan of the current
level's clusters in their stored order and returns the first cluster
whose center lies within the hit radius of the query point (ties broken
by order — `List.find?` — with no distance minimisation); when none
match, the raw markers are tested instead, and the no-hit outcome is an
empty/none result, never an exception (the function is total). -/
theorem claim_C8_identify (proj unproj : Coord → Coord) (widthOf : QCluster → ℚ)
    (hitGeos : List ℕ → Coord → List ℕ) (cs : List QCluster)
    (ms : Option (List ℕ)) (pt : Coord) :
    rendererIdentify proj unproj widthOf hitGeos (some cs) ms pt =
      (match cs.find? (fun c => distWithin pt (proj c.qcenter) (widthOf c)) with
       | some c => IdentifyResult.clusterHit (unproj c.qcenter) c.qchildren
       | none =>
         match ms with
         | some l => IdentifyResult.markers (hitGeos l pt)
         | none => IdentifyResult.nothing) := by
  have hscan : ∀ l : List QCluster, identifyScan proj widthOf pt l
      = l.find? (fun c => distWithin pt (proj c.qcenter) (widthOf c)) := by
    intro l
    induction l with
    | nil => rfl
    | cons c rest ih =>
      by_cases hc : distWithin pt (proj c.qcenter) (widthOf c)
      · simp [identifyScan, hc, List.find?_cons_of_pos]
      · simp [identifyScan, hc, List.find?_cons_of_neg, ih]
  have hred : rendererIdentify proj unproj widthOf hitGeos (some cs) ms pt =
      (match identifyScan proj widthOf pt cs with
       | some c => IdentifyResult.clusterHit (unproj c.qcenter) c.qchildren
       | none =>
         match ms with
         | some l => IdentifyResult.markers (hitGeos l pt)
         | none => IdentifyResult.nothing) := rfl
  rw [hred, hscan]

/-- A claim C9 instance environment. -/
def envC9 : ClusterEnv :=
  { geos := [⟨0, 0, 0, 0, true⟩, ⟨7, 3, 1, 0, true⟩]
    res := fun _ => 1
    radius := 10
    useProp := false
    minZoom := 3
    maxZoom := 5
    totalCount := 2 }

/-- C9: running the full clustering pipeline (point indexing, bucketing,
merging) twice on an identical point set and identical configuration
yields identical results — the embedding of the pipeline is a pure
function of the environment, with deterministic (insertion-order)
iteration everywhere, so equal inputs give equal cluster keys, counts,
centers, in the same order. -/
theorem claim_C9_determinism (e1 e2 : ClusterEnv) (f1 f2 : ℕ) (z1 z2 : ℤ)
    (he : e1 = e2) (hf : f1 = f2) (hz : z1 = z2) :
    fullClusterPipeline e1 f1 z1 = fullClusterPipeline e2 f2 z2 := by
  subst he
  subst hf
  subst hz
  rfl

theorem claim_C9_determinism_witness :
    fullClusterPipeline envC9 1 4 = fullClusterPipeline envC9 1 4 :=
  claim_C9_determinism envC9 envC9 1 1 4 4 rfl rfl rfl

/-- C10: for every argument list passed to `ClusterLayer.addGeometry`
(including arrays containing values that are not Markers), the
per-element type check never throws — `!markers[i] instanceof Marker`
tests whether a boolean is a `Marker`, which is always false — and the
call always falls through to the superclass `addGeometry`. -/
theorem claim_C10_addGeometry (markers : List JSVal) :
    addGeometry markers = Except.ok (superAddGeometry markers) := by
  have h : addGeometryThrows markers = false := by
    unfold addGeometryThrows
    rw [List.any_eq_false]
    intro i _
    show ¬instanceOfMarker (jsNot (markers.getD i JSVal.undef)) = true
    unfold jsNot instanceOfMarker
    simp
  unfold addGeometry
  rw [h]
  rfl

/-! ## Claim C4 -/

/-- A claim C4 instance environment: one point, and a map where the
minimum zoom has the larger resolution, so the adjacent level inspected
by `_computeGrid` is `zoom - 1`. -/
def envC4 : ClusterEnv :=
  { geos := [⟨0, 0, 0, 0, true⟩]
    res := fun z => if z = 0 then 4 else if z = 1 then 2 else 1
    radius := 10
    useProp := false
    minZoom := 0
    maxZoom := 2
    totalCount := 1 }

/-- An adjacent-level cached cluster for `envC4`, deliberately
distinguishable from anything level 1 would compute. -/
def cell0C4 : Cell :=
  { sum := (99, 99), center := (99, 99), count := 1, textSumProperty := 0,
    children := [7], key := (5, 5), parent := none }

/-- The cached result at zoom 0 for `envC4`: one cluster entry, as many
as the layer's total point count. -/
def lr0C4 : LevelResult :=
  { clusters := [((5, 5), cell0C4)], clusterMap := [((5, 5), (5, 5))] }

/-- The cache holding `lr0C4` at zoom 0. -/
def cacheC4 : Cache := [((0 : ℤ), some lr0C4)]

/-- What `_computeZoomGrid(1)` freshly computes for `envC4`. -/
def lrFreshC4 : LevelResult :=
  { clusters := [(((0 : ℤ), (0 : ℤ)),
      { sum := (0, 0), center := (0, 0), count := 1, textSumProperty := 0,
        children := [0], key := ((0 : ℤ), (0 : ℤ)), parent := none })]
    clusterMap := [(((0 : ℤ), (0 : ℤ)), ((0 : ℤ), (0 : ℤ)))] }

/-- C4 (code bug): the claim is false of the code.  The reuse test of
`_computeGrid` reads `this._clusterCache[pre].length`, but the cached
value is a plain `{clusters, clusterMap}` object with no `length`
property, so the strict comparison with `this.layer.getCount()` is
always `false` and the aliasing branch is dead code: the reuse condition
is `false` for every cache entry and every total, the cache is never
rewritten by the reuse step, and on a concrete input where the adjacent
(coarser-direction) cached level exists and has exactly as many cluster
entries as there are total points, the requested level is still
recomputed rather than set identical to the adjacent result. -/
theorem claim_C4_reuse_dead :
    (∀ (entry : Option (Option LevelResult)) (total : ℕ),
      reuseCond entry total = false) ∧
    (∀ (env : ClusterEnv) (zoom : ℤ) (cache : Cache),
      cacheAfterReuse env zoom cache = cache) ∧
    preZoom envC4 1 = 0 ∧
    clook cacheC4 0 = some (some lr0C4) ∧
    lr0C4.clusters.length = envC4.totalCount ∧
    clook (computeGrid envC4 0 1 cacheC4) 1 = some (some lrFreshC4) ∧
    lrFreshC4 ≠ lr0C4 := by
  have h1 : ∀ (entry : Option (Option LevelResult)) (total : ℕ),
      reuseCond entry total = false := by
    intro entry total
    match entry with
    | none => rfl
    | some none => rfl
    | some (some lr) => rfl
  have h2 : ∀ (env : ClusterEnv) (zoom : ℤ) (cache : Cache),
      cacheAfterReuse env zoom cache = cache := by
    intro env zoom cache
    rw [cacheAfterReuse, h1]
    simp
  refine ⟨h1, h2, ?_, ?_, ?_, ?_, ?_⟩
  · norm_num [preZoom, envC4]
  · norm_num [cacheC4, clook]
  · norm_num [lr0C4, envC4, cell0C4]
  · rw [computeGrid, h2]
    have hnone : clook cacheC4 1 = none := by norm_num [cacheC4, clook]
    rw [hnone]
    norm_num [computeZoomGridAux, computeZoomBody, preResult, markerExtent,
      markerPoints, initGridSystem, bucketGrids, addPoint, alook, bucketKey,
      cellSize, preTOf, extMin, mergeClusters, mergedState, cmapInit,
      findMerging, findMergingLoop, scanNeighbors, scanHit, offs, mergeEntry,
      absorbOne, absorbFun, centerFun, aupd, aerase, aset, distWithin, cadd,
      cmulq, parentOfPoint, extCombine, geoExtent, clook, cset, Prod.ext_iff,
      envC4, cacheC4, lr0C4, cell0C4, lrFreshC4]
  · intro h
    have : lrFreshC4.clusters = lr0C4.clusters := by rw [h]
    simp [lrFreshC4, lr0C4, cell0C4] at this

/-! ## Claim C6 -/

/-- A claim C6 instance grid (cell size 10, so merge radius 5): three
singleton cells; the centers at `(35, 9)` and `(40, 9)` are at distance
exactly 5, and the centers at `(40, 9)` and `(43, 12)` are at distance
`sqrt 18 < 5`. -/
def g6 : Grids :=
  [(((3 : ℤ), (0 : ℤ)), { sum := (35, 9), center := (35, 9), count := 1, textSumProperty := 0, children := [1], key := (3, 0), parent := none }),
    (((4 : ℤ), (0 : ℤ)), { sum := (40, 9), center := (40, 9), count := 1, textSumProperty := 0, children := [2], key := (4, 0), parent := none }),
    (((4 : ℤ), (1 : ℤ)), { sum := (43, 12), center := (43, 12), count := 1, textSumProperty := 0, children := [3], key := (4, 1), parent := none })]

/-- The result of `_mergeClusters(g6, 5)`. -/
def lrG6 : LevelResult :=
  { clusters := [(((3 : ℤ), (0 : ℤ)), { sum := (75, 18), center := (75 / 2, 9), count := 2, textSumProperty := 0, children := [1, 2], key := (3, 0), parent := none }),
      (((4 : ℤ), (1 : ℤ)), { sum := (43, 12), center := (43, 12), count := 1, textSumProperty := 0, children := [3], key := (4, 1), parent := none })]
    clusterMap := [(((3 : ℤ), (0 : ℤ)), ((3 : ℤ), (0 : ℤ))), (((4 : ℤ), (0 : ℤ)), ((3 : ℤ), (0 : ℤ))), (((4 : ℤ), (1 : ℤ)), ((4 : ℤ), (1 : ℤ)))]
  }

/-- The evaluation of `_mergeClusters` on `g6`. -/
theorem eval_g6 : mergeClusters g6 5 = lrG6 := by
  have hC6s1o1 : scanHit
      [(((3 : ℤ), (0 : ℤ)), { sum := (35, 9), center := (35, 9), count := 1, textSumProperty := 0, children := [1], key := (3, 0), parent := none }),
        (((4 : ℤ), (0 : ℤ)), { sum := (40, 9), center := (40, 9), count := 1, textSumProperty := 0, children := [2], key := (4, 0), parent := none }),
        (((4 : ℤ), (1 : ℤ)), { sum := (43, 12), center := (43, 12), count := 1, textSumProperty := 0, children := [3], key := (4, 1), parent := none })]
      { sum := (35, 9), center := (35, 9), count := 1, textSumProperty := 0, children := [1], key := (3, 0), parent := none } (5) (-1, -1)
      = none := by
    norm_num [scanHit, alook, distWithin, Prod.ext_iff, -Prod.mk_zero_zero, -Prod.mk_one_one]
  have hC6s1o2 : scanHit
      [(((3 : ℤ), (0 : ℤ)), { sum := (35, 9), center := (35, 9), count := 1, textSumProperty := 0, children := [1], key := (3, 0), parent := none }),
        (((4 : ℤ), (0 : ℤ)), { sum := (40, 9), center := (40, 9), count := 1, textSumProperty := 0, children := [2], key := (4, 0), parent := none }),
        (((4 : ℤ), (1 : ℤ)), { sum := (43, 12), center := (43, 12), count := 1, textSumProperty := 0, children := [3], key := (4, 1), parent := none })]
      { sum := (35, 9), center := (35, 9), count := 1, textSumProperty := 0, children := [1], key := (3, 0), parent := none } (5) (-1, 0)
      = none := by
    norm_num [scanHit, alook, distWithin, Prod.ext_iff, -Prod.mk_zero_zero, -Prod.mk_one_one]
  have hC6s1o3 : scanHit
      [(((3 : ℤ), (0 : ℤ)), { sum := (35, 9), center := (35, 9), count := 1, textSumProperty := 0, children := [1], key := (3, 0), parent := none }),
        (((4 : ℤ), (0 : ℤ)), { sum := (40, 9), center := (40, 9), count := 1, textSumProperty := 0, children := [2], key := (4, 0), parent := none }),
        (((4 : ℤ), (1 : ℤ)), { sum := (43, 12), center := (43, 12), count := 1, textSumProperty := 0, children := [3], key := (4, 1), parent := none })]
      { sum := (35, 9), center := (35, 9), count := 1, textSumProperty := 0, children := [1], key := (3, 0), parent := none } (5) (-1, 1)
      = none := by
    norm_num [scanHit, alook, distWithin, Prod.ext_iff, -Prod.mk_zero_zero, -Prod.mk_one_one]
  have hC6s1o4 : scanHit
      [(((3 : ℤ), (0 : ℤ)), { sum := (35, 9), center := (35, 9), count := 1, textSumProperty := 0, children := [1], key := (3, 0), parent := none }),
        (((4 : ℤ), (0 : ℤ)), { sum := (40, 9), center := (40, 9), count := 1, textSumProperty := 0, children := [2], key := (4, 0), parent := none }),
        (((4 : ℤ), (1 : ℤ)), { sum := (43, 12), center := (43, 12), count := 1, textSumProperty := 0, children := [3], key := (4, 1), parent := none })]
      { sum := (35, 9), center := (35, 9), count := 1, textSumProperty := 0, children := [1], key := (3, 0), parent := none } (5) (0, -1)
      = none := by
    norm_num [scanHit, alook, distWithin, Prod.ext_iff, -Prod.mk_zero_zero, -Prod.mk_one_one]
  have hC6s1o5 : scanHit
      [(((3 : ℤ), (0 : ℤ)), { sum := (35, 9), center := (35, 9), count := 1, textSumProperty := 0, children := [1], key := (3, 0), parent := none }),
        (((4 : ℤ), (0 : ℤ)), { sum := (40, 9), center := (40, 9), count := 1, textSumProperty := 0, children := [2], key := (4, 0), parent := none }),
        (((4 : ℤ), (1 : ℤ)), { sum := (43, 12), center := (43, 12), count := 1, textSumProperty := 0, children := [3], key := (4, 1), parent := none })]
      { sum := (35, 9), center := (35, 9), count := 1, textSumProperty := 0, children := [1], key := (3, 0), parent := none } (5) (0, 1)
      = none := by
    norm_num [scanHit, alook, distWithin, Prod.ext_iff, -Prod.mk_zero_zero, -Prod.mk_one_one]
  have hC6s1o6 : scanHit
      [(((3 : ℤ), (0 : ℤ)), { sum := (35, 9), center := (35, 9), count := 1, textSumProperty := 0, children := [1], key := (3, 0), parent := none }),
        (((4 : ℤ), (0 : ℤ)), { sum := (40, 9), center := (40, 9), count := 1, textSumProperty := 0, children := [2], key := (4, 0), parent := none }),
        (((4 : ℤ), (1 : ℤ)), { sum := (43, 12), center := (43, 12), count := 1, textSumProperty := 0, children := [3], key := (4, 1), parent := none })]
      { sum := (35, 9), center := (35, 9), count := 1, textSumProperty := 0, children := [1], key := (3, 0), parent := none } (5) (1, -1)
      = none := by
    norm_num [scanHit, alook, distWithin, Prod.ext_iff, -Prod.mk_zero_zero, -Prod.mk_one_one]
  have hC6s1o7 : scanHit
      [(((3 : ℤ), (0 : ℤ)), { sum := (35, 9), center := (35, 9), count := 1, textSumProperty := 0, children := [1], key := (3, 0), parent := none }),
        (((4 : ℤ), (0 : ℤ)), { sum := (40, 9), center := (40, 9), count := 1, textSumProperty := 0, children := [2], key := (4, 0), parent := none }),
        (((4 : ℤ), (1 : ℤ)), { sum := (43, 12), center := (43, 12), count := 1, textSumProperty := 0, children := [3], key := (4, 1), parent := none })]
      { sum := (35, 9), center := (35, 9), count := 1, textSumProperty := 0, children := [1], key := (3, 0), parent := none } (5) (1, 0)
      = some ((4 : ℤ), (0 : ℤ)) := by
    norm_num [scanHit, alook, distWithin, Prod.ext_iff, -Prod.mk_zero_zero, -Prod.mk_one_one]
  have hC6s1o8 : scanHit
      [(((3 : ℤ), (0 : ℤ)), { sum := (35, 9), center := (35, 9), count := 1, textSumProperty := 0, children := [1], key := (3, 0), parent := none }),
        (((4 : ℤ), (0 : ℤ)), { sum := (40, 9), center := (40, 9), count := 1, textSumProperty := 0, children := [2], key := (4, 0), parent := none }),
        (((4 : ℤ), (1 : ℤ)), { sum := (43, 12), center := (43, 12), count := 1, textSumProperty := 0, children := [3], key := (4, 1), parent := none })]
      { sum := (35, 9), center := (35, 9), count := 1, textSumProperty := 0, children := [1], key := (3, 0), parent := none } (5) (1, 1)
      = none := by
    norm_num [scanHit, alook, distWithin, Prod.ext_iff, -Prod.mk_zero_zero, -Prod.mk_one_one]
  have hC6s1scan : scanNeighbors
      [(((3 : ℤ), (0 : ℤ)), { sum := (35, 9), center := (35, 9), count := 1, textSumProperty := 0, children := [1], key := (3, 0), parent := none }),
        (((4 : ℤ), (0 : ℤ)), { sum := (40, 9), center := (40, 9), count := 1, textSumProperty := 0, children := [2], key := (4, 0), parent := none }),
        (((4 : ℤ), (1 : ℤ)), { sum := (43, 12), center := (43, 12), count := 1, textSumProperty := 0, children := [3], key := (4, 1), parent := none })]
      { sum := (35, 9), center := (35, 9), count := 1, textSumProperty := 0, children := [1], key := (3, 0), parent := none } (5)
      = [((4 : ℤ), (0 : ℤ))] := by
    rw [scanNeighbors, offs]
    rw [List.filterMap_cons_none hC6s1o1,
      List.filterMap_cons_none hC6s1o2,
      List.filterMap_cons_none hC6s1o3,
      List.filterMap_cons_none hC6s1o4,
      List.filterMap_cons_none hC6s1o5,
      List.filterMap_cons_none hC6s1o6,
      List.filterMap_cons_some hC6s1o7,
      List.filterMap_cons_none hC6s1o8]
    rfl
  have hC6s2o1 : scanHit
      [(((3 : ℤ), (0 : ℤ)), { sum := (35, 9), center := (35, 9), count := 1, textSumProperty := 0, children := [1], key := (3, 0), parent := none }),
        (((4 : ℤ), (0 : ℤ)), { sum := (40, 9), center := (40, 9), count := 1, textSumProperty := 0, children := [2], key := (4, 0), parent := none }),
        (((4 : ℤ), (1 : ℤ)), { sum := (43, 12), center := (43, 12), count := 1, textSumProperty := 0, children := [3], key := (4, 1), parent := none })]
      { sum := (43, 12), center := (43, 12), count := 1, textSumProperty := 0, children := [3], key := (4, 1), parent := none } (5) (-1, -1)
      = none := by
    norm_num [scanHit, alook, distWithin, Prod.ext_iff, -Prod.mk_zero_zero, -Prod.mk_one_one]
  have hC6s2o2 : scanHit
      [(((3 : ℤ), (0 : ℤ)), { sum := (35, 9), center := (35, 9), count := 1, textSumProperty := 0, children := [1], key := (3, 0), parent := none }),
        (((4 : ℤ), (0 : ℤ)), { sum := (40, 9), center := (40, 9), count := 1, textSumProperty := 0, children := [2], key := (4, 0), parent := none }),
        (((4 : ℤ), (1 : ℤ)), { sum := (43, 12), center := (43, 12), count := 1, textSumProperty := 0, children := [3], key := (4, 1), parent := none })]
      { sum := (43, 12), center := (43, 12), count := 1, textSumProperty := 0, children := [3], key := (4, 1), parent := none } (5) (-1, 0)
      = none := by
    norm_num [scanHit, alook, distWithin, Prod.ext_iff, -Prod.mk_zero_zero, -Prod.mk_one_one]
  have hC6s2o3 : scanHit
      [(((3 : ℤ), (0 : ℤ)), { sum := (35, 9), center := (35, 9), count := 1, textSumProperty := 0, children := [1], key := (3, 0), parent := none }),
        (((4 : ℤ), (0 : ℤ)), { sum := (40, 9), center := (40, 9), count := 1, textSumProperty := 0, children := [2], key := (4, 0), parent := none }),
        (((4 : ℤ), (1 : ℤ)), { sum := (43, 12), center := (43, 12), count := 1, textSumProperty := 0, children := [3], key := (4, 1), parent := none })]
      { sum := (43, 12), center := (43, 12), count := 1, textSumProperty := 0, children := [3], key := (4, 1), parent := none } (5) (-1, 1)
      = none := by
    norm_num [scanHit, alook, distWithin, Prod.ext_iff, -Prod.mk_zero_zero, -Prod.mk_one_one]
  have hC6s2o4 : scanHit
      [(((3 : ℤ), (0 : ℤ)), { sum := (35, 9), center := (35, 9), count := 1, textSumProperty := 0, children := [1], key := (3, 0), parent := none }),
        (((4 : ℤ), (0 : ℤ)), { sum := (40, 9), center := (40, 9), count := 1, textSumProperty := 0, children := [2], key := (4, 0), parent := none }),
        (((4 : ℤ), (1 : ℤ)), { sum := (43, 12), center := (43, 12), count := 1, textSumProperty := 0, children := [3], key := (4, 1), parent := none })]
      { sum := (43, 12), center := (43, 12), count := 1, textSumProperty := 0, children := [3], key := (4, 1), parent := none } (5) (0, -1)
      = some ((4 : ℤ), (0 : ℤ)) := by
    norm_num [scanHit, alook, distWithin, Prod.ext_iff, -Prod.mk_zero_zero, -Prod.mk_one_one]
  have hC6s2o5 : scanHit
      [(((3 : ℤ), (0 : ℤ)), { sum := (35, 9), center := (35, 9), count := 1, textSumProperty := 0, children := [1], key := (3, 0), parent := none }),
        (((4 : ℤ), (0 : ℤ)), { sum := (40, 9), center := (40, 9), count := 1, textSumProperty := 0, children := [2], key := (4, 0), parent := none }),
        (((4 : ℤ), (1 : ℤ)), { sum := (43, 12), center := (43, 12), count := 1, textSumProperty := 0, children := [3], key := (4, 1), parent := none })]
      { sum := (43, 12), center := (43, 12), count := 1, textSumProperty := 0, children := [3], key := (4, 1), parent := none } (5) (0, 1)
      = none := by
    norm_num [scanHit, alook, distWithin, Prod.ext_iff, -Prod.mk_zero_zero, -Prod.mk_one_one]
  have hC6s2o6 : scanHit
      [(((3 : ℤ), (0 : ℤ)), { sum := (35, 9), center := (35, 9), count := 1, textSumProperty := 0, children := [1], key := (3, 0), parent := none }),
        (((4 : ℤ), (0 : ℤ)), { sum := (40, 9), center := (40, 9), count := 1, textSumProperty := 0, children := [2], key := (4, 0), parent := none }),
        (((4 : ℤ), (1 : ℤ)), { sum := (43, 12), center := (43, 12), count := 1, textSumProperty := 0, children := [3], key := (4, 1), parent := none })]
      { sum := (43, 12), center := (43, 12), count := 1, textSumProperty := 0, children := [3], key := (4, 1), parent := none } (5) (1, -1)
      = none := by
    norm_num [scanHit, alook, distWithin, Prod.ext_iff, -Prod.mk_zero_zero, -Prod.mk_one_one]
  have hC6s2o7 : scanHit
      [(((3 : ℤ), (0 : ℤ)), { sum := (35, 9), center := (35, 9), count := 1, textSumProperty := 0, children := [1], key := (3, 0), parent := none }),
        (((4 : ℤ), (0 : ℤ)), { sum := (40, 9), center := (40, 9), count := 1, textSumProperty := 0, children := [2], key := (4, 0), parent := none }),
        (((4 : ℤ), (1 : ℤ)), { sum := (43, 12), center := (43, 12), count := 1, textSumProperty := 0, children := [3], key := (4, 1), parent := none })]
      { sum := (43, 12), center := (43, 12), count := 1, textSumProperty := 0, children := [3], key := (4, 1), parent := none } (5) (1, 0)
      = none := by
    norm_num [scanHit, alook, distWithin, Prod.ext_iff, -Prod.mk_zero_zero, -Prod.mk_one_one]
  have hC6s2o8 : scanHit
      [(((3 : ℤ), (0 : ℤ)), { sum := (35, 9), center := (35, 9), count := 1, textSumProperty := 0, children := [1], key := (3, 0), parent := none }),
        (((4 : ℤ), (0 : ℤ)), { sum := (40, 9), center := (40, 9), count := 1, textSumProperty := 0, children := [2], key := (4, 0), parent := none }),
        (((4 : ℤ), (1 : ℤ)), { sum := (43, 12), center := (43, 12), count := 1, textSumProperty := 0, children := [3], key := (4, 1), parent := none })]
      { sum := (43, 12), center := (43, 12), count := 1, textSumProperty := 0, children := [3], key := (4, 1), parent := none } (5) (1, 1)
      = none := by
    norm_num [scanHit, alook, distWithin, Prod.ext_iff, -Prod.mk_zero_zero, -Prod.mk_one_one]
  have hC6s2scan : scanNeighbors
      [(((3 : ℤ), (0 : ℤ)), { sum := (35, 9), center := (35, 9), count := 1, textSumProperty := 0, children := [1], key := (3, 0), parent := none }),
        (((4 : ℤ), (0 : ℤ)), { sum := (40, 9), center := (40, 9), count := 1, textSumProperty := 0, children := [2], key := (4, 0), parent := none }),
        (((4 : ℤ), (1 : ℤ)), { sum := (43, 12), center := (43, 12), count := 1, textSumProperty := 0, children := [3], key := (4, 1), parent := none })]
      { sum := (43, 12), center := (43, 12), count := 1, textSumProperty := 0, children := [3], key := (4, 1), parent := none } (5)
      = [((4 : ℤ), (0 : ℤ))] := by
    rw [scanNeighbors, offs]
    rw [List.filterMap_cons_none hC6s2o1,
      List.filterMap_cons_none hC6s2o2,
      List.filterMap_cons_none hC6s2o3,
      List.filterMap_cons_some hC6s2o4,
      List.filterMap_cons_none hC6s2o5,
      List.filterMap_cons_none hC6s2o6,
      List.filterMap_cons_none hC6s2o7,
      List.filterMap_cons_none hC6s2o8]
    rfl
  have hC6fm : findMerging
      [(((3 : ℤ), (0 : ℤ)), { sum := (35, 9), center := (35, 9), count := 1, textSumProperty := 0, children := [1], key := (3, 0), parent := none }),
        (((4 : ℤ), (0 : ℤ)), { sum := (40, 9), center := (40, 9), count := 1, textSumProperty := 0, children := [2], key := (4, 0), parent := none }),
        (((4 : ℤ), (1 : ℤ)), { sum := (43, 12), center := (43, 12), count := 1, textSumProperty := 0, children := [3], key := (4, 1), parent := none })] (5)
      = ([((4 : ℤ), (0 : ℤ)), ((4 : ℤ), (0 : ℤ))], [(((3 : ℤ), (0 : ℤ)), [((4 : ℤ), (0 : ℤ))]), (((4 : ℤ), (1 : ℤ)), [((4 : ℤ), (0 : ℤ))])]) := by
    norm_num [findMerging, findMergingLoop, hC6s1scan, hC6s2scan, Prod.ext_iff, -Prod.mk_zero_zero, -Prod.mk_one_one]
  have hC6mc : mergeClusters
      [(((3 : ℤ), (0 : ℤ)), { sum := (35, 9), center := (35, 9), count := 1, textSumProperty := 0, children := [1], key := (3, 0), parent := none }),
        (((4 : ℤ), (0 : ℤ)), { sum := (40, 9), center := (40, 9), count := 1, textSumProperty := 0, children := [2], key := (4, 0), parent := none }),
        (((4 : ℤ), (1 : ℤ)), { sum := (43, 12), center := (43, 12), count := 1, textSumProperty := 0, children := [3], key := (4, 1), parent := none })] (5)
      = lrG6 := by
    simp only [mergeClusters, mergedState, hC6fm]
    norm_num [cmapInit, mergeEntry, absorbOne, absorbFun, centerFun, alook, aupd,
      aerase, aset, lrG6, Prod.ext_iff, cadd, cmulq, -Prod.mk_zero_zero, -Prod.mk_one_one]
  simpa only [g6] using hC6mc

/-- C6 counterexample: the cells at keys `(4, 0)` and `(4, 1)` of `g6`
are among each other's 8 grid neighbours and their pre-merge centers are
within the merge radius 5, yet `_mergeClusters(g6, 5)` merges neither
into the other: the cell `(4, 0)` is absorbed by `(3, 0)` (also at
distance exactly 5, scanned earlier), so when the merge list of `(4, 1)`
is processed its recorded neighbour is already gone and `(4, 1)` stays a
singleton.  The "exactly when" of the claim fails in the "if"
direction. -/
theorem claim_C6_counterexample :
    (((0 : ℤ), (1 : ℤ)) ∈ offs ∧ ((0 : ℤ), (-1 : ℤ)) ∈ offs) ∧
    (∃ cw cz, alook g6 ((4 : ℤ), (0 : ℤ)) = some cw ∧
      alook g6 ((4 : ℤ), (1 : ℤ)) = some cz ∧
      cz.key = (cw.key.1 + 0, cw.key.2 + 1) ∧
      distWithin cw.center cz.center 5 = true) ∧
    alook (mergeClusters g6 5).clusters ((4 : ℤ), (0 : ℤ)) = none ∧
    (∃ c, alook (mergeClusters g6 5).clusters ((4 : ℤ), (1 : ℤ)) = some c ∧
      c.count = 1 ∧ c.children = [3]) ∧
    alook (mergeClusters g6 5).clusterMap ((4 : ℤ), (0 : ℤ)) =
      some ((3 : ℤ), (0 : ℤ)) := by
  refine ⟨⟨by decide, by decide⟩, ?_, ?_, ?_, ?_⟩
  · refine ⟨{ sum := (40, 9), center := (40, 9), count := 1, textSumProperty := 0, children := [2], key := (4, 0), parent := none }, { sum := (43, 12), center := (43, 12), count := 1, textSumProperty := 0, children := [3], key := (4, 1), parent := none }, ?_, ?_, ?_, ?_⟩
    · norm_num [g6, alook, Prod.ext_iff]
    · norm_num [g6, alook, Prod.ext_iff]
    · norm_num [Prod.ext_iff]
    · norm_num [distWithin]
  · rw [eval_g6]
    norm_num [lrG6, alook, Prod.ext_iff]
  · refine ⟨{ sum := (43, 12), center := (43, 12), count := 1, textSumProperty := 0, children := [3], key := (4, 1), parent := none }, ?_, ?_, ?_⟩
    · rw [eval_g6]
      norm_num [lrG6, alook, Prod.ext_iff]
    · norm_num
    · norm_num
  · rw [eval_g6]
    norm_num [lrG6, alook, Prod.ext_iff]

theorem WFg_of_entries {g : Grids} (h : ∀ kc ∈ g, kc.2.key = kc.1) : WFg g := by
  intro k c hk
  exact h (k, c) (alook_mem hk)

/-- C6 (amended): what pass 1 of `_mergeClusters` actually guarantees —
for a grid whose cells are stored under their own `key` field, a key
`x` is recorded in the merge list of a scanned cell `c1` (pushed into
`merging[c1.key]`) exactly when `x` is one of the 8 grid-neighbour
positions of `c1.key`, a cell is present there, and the planar Euclidean
distance between the pre-merge centers is at most `r` (boundary
inclusive).  Being recorded does not guarantee the final merge: the
absorbing pass skips a recorded neighbour that an earlier merge-list
entry has already absorbed. -/
theorem claim_C6_amended (grids : Grids) (c1 : Cell) (r : ℚ) (x : GKey)
    (hwf : WFg grids) :
    x ∈ scanNeighbors grids c1 r ↔
      (((x.1 - c1.key.1, x.2 - c1.key.2) : GKey) ∈ offs ∧
       ∃ cx, alook grids x = some cx ∧ distWithin c1.center cx.center r = true) := by
  constructor
  · intro hx
    obtain ⟨cx, hcx, hkey, hdist, hoff⟩ := scanNeighbors_lookup hwf hx
    exact ⟨hoff, cx, hcx, hdist⟩
  · rintro ⟨hoff, cx, hcx, hdist⟩
    refine mem_scanNeighbors.mpr ⟨(x.1 - c1.key.1, x.2 - c1.key.2), hoff, cx, ?_, ?_, hdist⟩
    · have hx : ((c1.key.1 + (x.1 - c1.key.1), c1.key.2 + (x.2 - c1.key.2)) : GKey) = x := by
        have e1 : c1.key.1 + (x.1 - c1.key.1) = x.1 := by omega
        have e2 : c1.key.2 + (x.2 - c1.key.2) = x.2 := by omega
        rw [e1, e2]
      rw [hx]
      exact hcx
    · exact hwf x cx hcx

theorem claim_C6_amended_witness :
    (((4 : ℤ), (0 : ℤ)) ∈ scanNeighbors g6
        { sum := (43, 12), center := (43, 12), count := 1, textSumProperty := 0,
          children := [3], key := (4, 1), parent := none } 5 ↔
      (((((4 : ℤ)) - 4, ((0 : ℤ)) - 1) : GKey) ∈ offs ∧
       ∃ cx, alook g6 ((4 : ℤ), (0 : ℤ)) = some cx ∧
         distWithin ((43 : ℚ), (12 : ℚ)) cx.center 5 = true)) :=
  claim_C6_amended g6
    { sum := (43, 12), center := (43, 12), count := 1, textSumProperty := 0,
      children := [3], key := (4, 1), parent := none } 5 ((4 : ℤ), (0 : ℤ))
    (WFg_of_entries (by decide))

/-! ## Claim C5 -/

theorem absorbOne_parent {mk : GKey} {gm : Grids × CMap} {tk k : GKey} {c : Cell}
    (h : alook (absorbOne mk gm tk).1 k = some c) :
    ∃ c0, alook gm.1 k = some c0 ∧ c.parent = c0.parent := by
  unfold absorbOne at h
  split at h
  · exact ⟨c, h, rfl⟩
  · next tv htv =>
    rw [alook_aerase] at h
    by_cases hk : tk = k
    · rw [if_pos hk] at h
      exact Option.noConfusion h
    · rw [if_neg hk, alook_aupd] at h
      by_cases hm : mk = k
      · rw [if_pos hm] at h
        cases hu : alook gm.1 k with
        | none =>
          rw [hu] at h
          exact Option.noConfusion h
        | some u =>
          rw [hu] at h
          injection h with h
          exact ⟨u, rfl, by rw [← h]; rfl⟩
      · rw [if_neg hm] at h
        exact ⟨c, h, rfl⟩

theorem absorbFold_parent {mk : GKey} (tks : List GKey) (gm : Grids × CMap) {k : GKey}
    {c : Cell} (h : alook (tks.foldl (absorbOne mk) gm).1 k = some c) :
    ∃ c0, alook gm.1 k = some c0 ∧ c.parent = c0.parent := by
  induction tks generalizing gm with
  | nil => exact ⟨c, h, rfl⟩
  | cons t ts ih =>
    obtain ⟨c1, hc1, hp1⟩ := ih (absorbOne mk gm t) h
    obtain ⟨c0, hc0, hp0⟩ := absorbOne_parent hc1
    exact ⟨c0, hc0, hp1.trans hp0⟩

theorem mergeEntry_parent {gm : Grids × CMap} {e : GKey × List GKey} {k : GKey} {c : Cell}
    (h : alook (mergeEntry gm e).1 k = some c) :
    ∃ c0, alook gm.1 k = some c0 ∧ c.parent = c0.parent := by
  unfold mergeEntry at h
  split at h
  · exact ⟨c, h, rfl⟩
  · next u hu =>
    rw [alook_aupd] at h
    by_cases hk : e.1 = k
    · rw [if_pos hk] at h
      cases hv : alook (e.2.foldl (absorbOne e.1) gm).1 k with
      | none =>
        rw [hv] at h
        exact Option.noConfusion h
      | some v =>
        rw [hv, Option.map_some'] at h
        injection h with h
        obtain ⟨c0, hc0, hp⟩ := absorbFold_parent e.2 gm hv
        exact ⟨c0, hc0, by rw [← h]; exact hp⟩
    · rw [if_neg hk] at h
      exact absorbFold_parent e.2 gm h

theorem mergeFold_parent (es : List (GKey × List GKey)) (gm : Grids × CMap) {k : GKey}
    {c : Cell} (h : alook (es.foldl mergeEntry gm).1 k = some c) :
    ∃ c0, alook gm.1 k = some c0 ∧ c.parent = c0.parent := by
  induction es generalizing gm with
  | nil => exact ⟨c, h, rfl⟩
  | cons e es ih =>
    obtain ⟨c1, hc1, hp1⟩ := ih (mergeEntry gm e) h
    obtain ⟨c0, hc0, hp0⟩ := mergeEntry_parent hc1
    exact ⟨c0, hc0, hp1.trans hp0⟩

theorem mergeClusters_parent {g : Grids} {r : ℚ} {k : GKey} {c : Cell}
    (h : alook (mergeClusters g r).clusters k = some c) :
    ∃ c0, alook g k = some c0 ∧ c.parent = c0.parent :=
  mergeFold_parent (findMerging g r).2 (g, cmapInit g) h

theorem bucketFold_parent (useProp : Bool) (minc : Coord) (r : ℚ) (preT : Option ℚ)
    (pc : Option LevelResult) :
    ∀ (pts : List MPoint) (g : Grids) (k : GKey) (c : Cell),
    alook (pts.foldl (addPoint useProp minc r preT pc) g) k = some c →
    (∃ c0, alook g k = some c0 ∧ c.parent = c0.parent) ∨
    (alook g k = none ∧
      ∃ p, pts.find? (fun p => decide (bucketKey minc r (p.x, p.y) = k)) = some p ∧
        c.parent = parentOfPoint minc preT pc p) := by
  intro pts
  induction pts with
  | nil =>
    intro g k c h
    exact Or.inl ⟨c, h, rfl⟩
  | cons p ps ih =>
    intro g k c h
    rw [List.foldl_cons] at h
    rcases ih (addPoint useProp minc r preT pc g p) k c h with
      ⟨c1, hc1, hp1⟩ | ⟨hnone, q, hq, hpq⟩
    · unfold addPoint at hc1
      split at hc1
      · next hkp =>
        rw [alook_append_fresh _ _ _ _ hkp] at hc1
        by_cases hk : bucketKey minc r (p.x, p.y) = k
        · rw [if_pos hk] at hc1
          injection hc1 with hc1
          right
          refine ⟨by rw [← hk]; exact hkp, p, ?_, ?_⟩
          · exact List.find?_cons_of_pos _ (by simp [hk])
          · rw [hp1, ← hc1]
        · rw [if_neg hk] at hc1
          exact Or.inl ⟨c1, hc1, hp1⟩
      · next u hu =>
        rw [alook_aupd] at hc1
        by_cases hk : bucketKey minc r (p.x, p.y) = k
        · rw [if_pos hk] at hc1
          rw [hk] at hu
          rw [hu, Option.map_some'] at hc1
          injection hc1 with hc1
          refine Or.inl ⟨u, hu, ?_⟩
          rw [hp1, ← hc1]
        · rw [if_neg hk] at hc1
          exact Or.inl ⟨c1, hc1, hp1⟩
    · unfold addPoint at hnone
      split at hnone
      · next hkp =>
        rw [alook_append_fresh _ _ _ _ hkp] at hnone
        by_cases hk : bucketKey minc r (p.x, p.y) = k
        · rw [if_pos hk] at hnone
          exact Option.noConfusion hnone
        · rw [if_neg hk] at hnone
          right
          refine ⟨hnone, q, ?_, hpq⟩
          rw [List.find?_cons_of_neg _ (by simp [hk]), hq]
      · next u hu =>
        rw [alook_aupd] at hnone
        by_cases hk : bucketKey minc r (p.x, p.y) = k
        · rw [if_pos hk] at hnone
          rw [hk] at hu
          rw [hu, Option.map_some'] at hnone
          exact Option.noConfusion hnone
        · rw [if_neg hk] at hnone
          right
          refine ⟨hnone, q, ?_, hpq⟩
          rw [List.find?_cons_of_neg _ (by simp [hk]), hq]

/-- A claim C5 instance environment: three points `(0,0)`, `(11,0)`,
`(19,0)`; level 1 has cell size 15, level 2 has cell size 10; zoom 0 has
no resolution, so level 1 is the coarsest cached level. -/
def envC5 : ClusterEnv :=
  { geos := [⟨0, 0, 0, 0, true⟩, ⟨11, 0, 1, 0, true⟩, ⟨19, 0, 2, 0, true⟩]
    res := fun z => if z = 1 then 3 / 2 else if z = 2 then 1 else 0
    radius := 10
    useProp := false
    minZoom := 1
    maxZoom := 2
    totalCount := 3 }

/-- Level 1 of `envC5` (cell size 15, no merge: the two centers are
13.5 apart, beyond the merge radius 7.5). -/
def lr1C5 : LevelResult :=
  { clusters := [(((0 : ℤ), (0 : ℤ)), { sum := (11, 0), center := (11 / 2, 0), count := 2, textSumProperty := 0, children := [0, 1], key := (0, 0), parent := none }),
      (((1 : ℤ), (0 : ℤ)), { sum := (19, 0), center := (19, 0), count := 1, textSumProperty := 0, children := [2], key := (1, 0), parent := none })]
    clusterMap := [(((0 : ℤ), (0 : ℤ)), ((0 : ℤ), (0 : ℤ))), (((1 : ℤ), (0 : ℤ)), ((1 : ℤ), (0 : ℤ)))] }

/-- Level 2 of `envC5` (cell size 10, no merge: the two centers are 15
apart, beyond the merge radius 5).  The cell `(1, 0)` was created by the
point `(11, 0)`, whose level-1 bucket is `(0, 0)`, so its `parent` is the
level-1 cluster `(0, 0)` — although the cluster's own coordinates land in
the level-1 bucket `(1, 0)`. -/
def lr2C5 : LevelResult :=
  { clusters := [(((0 : ℤ), (0 : ℤ)), { sum := (0, 0), center := (0, 0), count := 1, textSumProperty := 0, children := [0], key := (0, 0), parent := some (0, 0) }),
      (((1 : ℤ), (0 : ℤ)), { sum := (30, 0), center := (15, 0), count := 2, textSumProperty := 0, children := [1, 2], key := (1, 0), parent := some (0, 0) })]
    clusterMap := [(((0 : ℤ), (0 : ℤ)), ((0 : ℤ), (0 : ℤ))), (((1 : ℤ), (0 : ℤ)), ((1 : ℤ), (0 : ℤ)))] }

/-- The evaluation of `_computeZoomGrid(2)` on `envC5`: level 1 is
computed recursively and cached, then level 2 buckets against it. -/
theorem eval_envC5 : computeZoomGridAux envC5 1 2 []
    = (some lr2C5, [((1 : ℤ), some lr1C5)]) := by
  have hext : markerExtent envC5 = some ⟨0, 0, 19, 0⟩ := by
    norm_num [markerExtent, initGridSystem, envC5, geoExtent, extCombine]
  have hbg1 : bucketGrids envC5 ⟨0, 0, 19, 0⟩ 1 none
      = [(((0 : ℤ), (0 : ℤ)), { sum := (11, 0), center := (11 / 2, 0), count := 2, textSumProperty := 0, children := [0, 1], key := (0, 0), parent := none }),
        (((1 : ℤ), (0 : ℤ)), { sum := (19, 0), center := (19, 0), count := 1, textSumProperty := 0, children := [2], key := (1, 0), parent := none })] := by
    norm_num [bucketGrids, markerPoints, initGridSystem, envC5, geoExtent, extCombine,
      addPoint, alook, bucketKey, cellSize, preTOf, extMin, cadd, cmulq, parentOfPoint,
      aupd, Prod.ext_iff]
  have hC5L1s1o1 : scanHit
      [(((0 : ℤ), (0 : ℤ)), { sum := (11, 0), center := (11 / 2, 0), count := 2, textSumProperty := 0, children := [0, 1], key := (0, 0), parent := none }),
        (((1 : ℤ), (0 : ℤ)), { sum := (19, 0), center := (19, 0), count := 1, textSumProperty := 0, children := [2], key := (1, 0), parent := none })]
      { sum := (11, 0), center := (11 / 2, 0), count := 2, textSumProperty := 0, children := [0, 1], key := (0, 0), parent := none } (15 / 2) (-1, -1)
      = none := by
    norm_num [scanHit, alook, distWithin, Prod.ext_iff, -Prod.mk_zero_zero, -Prod.mk_one_one]
  have hC5L1s1o2 : scanHit
      [(((0 : ℤ), (0 : ℤ)), { sum := (11, 0), center := (11 / 2, 0), count := 2, textSumProperty := 0, children := [0, 1], key := (0, 0), parent := none }),
        (((1 : ℤ), (0 : ℤ)), { sum := (19, 0), center := (19, 0), count := 1, textSumProperty := 0, children := [2], key := (1, 0), parent := none })]
      { sum := (11, 0), center := (11 / 2, 0), count := 2, textSumProperty := 0, children := [0, 1], key := (0, 0), parent := none } (15 / 2) (-1, 0)
      = none := by
    norm_num [scanHit, alook, distWithin, Prod.ext_iff, -Prod.mk_zero_zero, -Prod.mk_one_one]
  have hC5L1s1o3 : scanHit
      [(((0 : ℤ), (0 : ℤ)), { sum := (11, 0), center := (11 / 2, 0), count := 2, textSumProperty := 0, children := [0, 1], key := (0, 0), parent := none }),
        (((1 : ℤ), (0 : ℤ)), { sum := (19, 0), center := (19, 0), count := 1, textSumProperty := 0, children := [2], key := (1, 0), parent := none })]
      { sum := (11, 0), center := (11 / 2, 0), count := 2, textSumProperty := 0, children := [0, 1], key := (0, 0), parent := none } (15 / 2) (-1, 1)
      = none := by
    norm_num [scanHit, alook, distWithin, Prod.ext_iff, -Prod.mk_zero_zero, -Prod.mk_one_one]
  have hC5L1s1o4 : scanHit
      [(((0 : ℤ), (0 : ℤ)), { sum := (11, 0), center := (11 / 2, 0), count := 2, textSumProperty := 0, children := [0, 1], key := (0, 0), parent := none }),
        (((1 : ℤ), (0 : ℤ)), { sum := (19, 0), center := (19, 0), count := 1, textSumProperty := 0, children := [2], key := (1, 0), parent := none })]
      { sum := (11, 0), center := (11 / 2, 0), count := 2, textSumProperty := 0, children := [0, 1], key := (0, 0), parent := none } (15 / 2) (0, -1)
      = none := by
    norm_num [scanHit, alook, distWithin, Prod.ext_iff, -Prod.mk_zero_zero, -Prod.mk_one_one]
  have hC5L1s1o5 : scanHit
      [(((0 : ℤ), (0 : ℤ)), { sum := (11, 0), center := (11 / 2, 0), count := 2, textSumProperty := 0, children := [0, 1], key := (0, 0), parent := none }),
        (((1 : ℤ), (0 : ℤ)), { sum := (19, 0), center := (19, 0), count := 1, textSumProperty := 0, children := [2], key := (1, 0), parent := none })]
      { sum := (11, 0), center := (11 / 2, 0), count := 2, textSumProperty := 0, children := [0, 1], key := (0, 0), parent := none } (15 / 2) (0, 1)
      = none := by
    norm_num [scanHit, alook, distWithin, Prod.ext_iff, -Prod.mk_zero_zero, -Prod.mk_one_one]
  have hC5L1s1o6 : scanHit
      [(((0 : ℤ), (0 : ℤ)), { sum := (11, 0), center := (11 / 2, 0), count := 2, textSumProperty := 0, children := [0, 1], key := (0, 0), parent := none }),
        (((1 : ℤ), (0 : ℤ)), { sum := (19, 0), center := (19, 0), count := 1, textSumProperty := 0, children := [2], key := (1, 0), parent := none })]
      { sum := (11, 0), center := (11 / 2, 0), count := 2, textSumProperty := 0, children := [0, 1], key := (0, 0), parent := none } (15 / 2) (1, -1)
      = none := by
    norm_num [scanHit, alook, distWithin, Prod.ext_iff, -Prod.mk_zero_zero, -Prod.mk_one_one]
  have hC5L1s1o7 : scanHit
      [(((0 : ℤ), (0 : ℤ)), { sum := (11, 0), center := (11 / 2, 0), count := 2, textSumProperty := 0, children := [0, 1], key := (0, 0), parent := none }),
        (((1 : ℤ), (0 : ℤ)), { sum := (19, 0), center := (19, 0), count := 1, textSumProperty := 0, children := [2], key := (1, 0), parent := none })]
      { sum := (11, 0), center := (11 / 2, 0), count := 2, textSumProperty := 0, children := [0, 1], key := (0, 0), parent := none } (15 / 2) (1, 0)
      = none := by
    norm_num [scanHit, alook, distWithin, Prod.ext_iff, -Prod.mk_zero_zero, -Prod.mk_one_one]
  have hC5L1s1o8 : scanHit
      [(((0 : ℤ), (0 : ℤ)), { sum := (11, 0), center := (11 / 2, 0), count := 2, textSumProperty := 0, children := [0, 1], key := (0, 0), parent := none }),
        (((1 : ℤ), (0 : ℤ)), { sum := (19, 0), center := (19, 0), count := 1, textSumProperty := 0, children := [2], key := (1, 0), parent := none })]
      { sum := (11, 0), center := (11 / 2, 0), count := 2, textSumProperty := 0, children := [0, 1], key := (0, 0), parent := none } (15 / 2) (1, 1)
      = none := by
    norm_num [scanHit, alook, distWithin, Prod.ext_iff, -Prod.mk_zero_zero, -Prod.mk_one_one]
  have hC5L1s1scan : scanNeighbors
      [(((0 : ℤ), (0 : ℤ)), { sum := (11, 0), center := (11 / 2, 0), count := 2, textSumProperty := 0, children := [0, 1], key := (0, 0), parent := none }),
        (((1 : ℤ), (0 : ℤ)), { sum := (19, 0), center := (19, 0), count := 1, textSumProperty := 0, children := [2], key := (1, 0), parent := none })]
      { sum := (11, 0), center := (11 / 2, 0), count := 2, textSumProperty := 0, children := [0, 1], key := (0, 0), parent := none } (15 / 2)
      = [] := by
    rw [scanNeighbors, offs]
    rw [List.filterMap_cons_none hC5L1s1o1,
      List.filterMap_cons_none hC5L1s1o2,
      List.filterMap_cons_none hC5L1s1o3,
      List.filterMap_cons_none hC5L1s1o4,
      List.filterMap_cons_none hC5L1s1o5,
      List.filterMap_cons_none hC5L1s1o6,
      List.filterMap_cons_none hC5L1s1o7,
      List.filterMap_cons_none hC5L1s1o8]
    rfl
  have hC5L1s2o1 : scanHit
      [(((0 : ℤ), (0 : ℤ)), { sum := (11, 0), center := (11 / 2, 0), count := 2, textSumProperty := 0, children := [0, 1], key := (0, 0), parent := none }),
        (((1 : ℤ), (0 : ℤ)), { sum := (19, 0), center := (19, 0), count := 1, textSumProperty := 0, children := [2], key := (1, 0), parent := none })]
      { sum := (19, 0), center := (19, 0), count := 1, textSumProperty := 0, children := [2], key := (1, 0), parent := none } (15 / 2) (-1, -1)
      = none := by
    norm_num [scanHit, alook, distWithin, Prod.ext_iff, -Prod.mk_zero_zero, -Prod.mk_one_one]
  have hC5L1s2o2 : scanHit
      [(((0 : ℤ), (0 : ℤ)), { sum := (11, 0), center := (11 / 2, 0), count := 2, textSumProperty := 0, children := [0, 1], key := (0, 0), parent := none }),
        (((1 : ℤ), (0 : ℤ)), { sum := (19, 0), center := (19, 0), count := 1, textSumProperty := 0, children := [2], key := (1, 0), parent := none })]
      { sum := (19, 0), center := (19, 0), count := 1, textSumProperty := 0, children := [2], key := (1, 0), parent := none } (15 / 2) (-1, 0)
      = none := by
    norm_num [scanHit, alook, distWithin, Prod.ext_iff, -Prod.mk_zero_zero, -Prod.mk_one_one]
  have hC5L1s2o3 : scanHit
      [(((0 : ℤ), (0 : ℤ)), { sum := (11, 0), center := (11 / 2, 0), count := 2, textSumProperty := 0, children := [0, 1], key := (0, 0), parent := none }),
        (((1 : ℤ), (0 : ℤ)), { sum := (19, 0), center := (19, 0), count := 1, textSumProperty := 0, children := [2], key := (1, 0), parent := none })]
      { sum := (19, 0), center := (19, 0), count := 1, textSumProperty := 0, children := [2], key := (1, 0), parent := none } (15 / 2) (-1, 1)
      = none := by
    norm_num [scanHit, alook, distWithin, Prod.ext_iff, -Prod.mk_zero_zero, -Prod.mk_one_one]
  have hC5L1s2o4 : scanHit
      [(((0 : ℤ), (0 : ℤ)), { sum := (11, 0), center := (11 / 2, 0), count := 2, textSumProperty := 0, children := [0, 1], key := (0, 0), parent := none }),
        (((1 : ℤ), (0 : ℤ)), { sum := (19, 0), center := (19, 0), count := 1, textSumProperty := 0, children := [2], key := (1, 0), parent := none })]
      { sum := (19, 0), center := (19, 0), count := 1, textSumProperty := 0, children := [2], key := (1, 0), parent := none } (15 / 2) (0, -1)
      = none := by
    norm_num [scanHit, alook, distWithin, Prod.ext_iff, -Prod.mk_zero_zero, -Prod.mk_one_one]
  have hC5L1s2o5 : scanHit
      [(((0 : ℤ), (0 : ℤ)), { sum := (11, 0), center := (11 / 2, 0), count := 2, textSumProperty := 0, children := [0, 1], key := (0, 0), parent := none }),
        (((1 : ℤ), (0 : ℤ)), { sum := (19, 0), center := (19, 0), count := 1, textSumProperty := 0, children := [2], key := (1, 0), parent := none })]
      { sum := (19, 0), center := (19, 0), count := 1, textSumProperty := 0, children := [2], key := (1, 0), parent := none } (15 / 2) (0, 1)
      = none := by
    norm_num [scanHit, alook, distWithin, Prod.ext_iff, -Prod.mk_zero_zero, -Prod.mk_one_one]
  have hC5L1s2o6 : scanHit
      [(((0 : ℤ), (0 : ℤ)), { sum := (11, 0), center := (11 / 2, 0), count := 2, textSumProperty := 0, children := [0, 1], key := (0, 0), parent := none }),
        (((1 : ℤ), (0 : ℤ)), { sum := (19, 0), center := (19, 0), count := 1, textSumProperty := 0, children := [2], key := (1, 0), parent := none })]
      { sum := (19, 0), center := (19, 0), count := 1, textSumProperty := 0, children := [2], key := (1, 0), parent := none } (15 / 2) (1, -1)
      = none := by
    norm_num [scanHit, alook, distWithin, Prod.ext_iff, -Prod.mk_zero_zero, -Prod.mk_one_one]
  have hC5L1s2o7 : scanHit
      [(((0 : ℤ), (0 : ℤ)), { sum := (11, 0), center := (11 / 2, 0), count := 2, textSumProperty := 0, children := [0, 1], key := (0, 0), parent := none }),
        (((1 : ℤ), (0 : ℤ)), { sum := (19, 0), center := (19, 0), count := 1, textSumProperty := 0, children := [2], key := (1, 0), parent := none })]
      { sum := (19, 0), center := (19, 0), count := 1, textSumProperty := 0, children := [2], key := (1, 0), parent := none } (15 / 2) (1, 0)
      = none := by
    norm_num [scanHit, alook, distWithin, Prod.ext_iff, -Prod.mk_zero_zero, -Prod.mk_one_one]
  have hC5L1s2o8 : scanHit
      [(((0 : ℤ), (0 : ℤ)), { sum := (11, 0), center := (11 / 2, 0), count := 2, textSumProperty := 0, children := [0, 1], key := (0, 0), parent := none }),
        (((1 : ℤ), (0 : ℤ)), { sum := (19, 0), center := (19, 0), count := 1, textSumProperty := 0, children := [2], key := (1, 0), parent := none })]
      { sum := (19, 0), center := (19, 0), count := 1, textSumProperty := 0, children := [2], key := (1, 0), parent := none } (15 / 2) (1, 1)
      = none := by
    norm_num [scanHit, alook, distWithin, Prod.ext_iff, -Prod.mk_zero_zero, -Prod.mk_one_one]
  have hC5L1s2scan : scanNeighbors
      [(((0 : ℤ), (0 : ℤ)), { sum := (11, 0), center := (11 / 2, 0), count := 2, textSumProperty := 0, children := [0, 1], key := (0, 0), parent := none }),
        (((1 : ℤ), (0 : ℤ)), { sum := (19, 0), center := (19, 0), count := 1, textSumProperty := 0, children := [2], key := (1, 0), parent := none })]
      { sum := (19, 0), center := (19, 0), count := 1, textSumProperty := 0, children := [2], key := (1, 0), parent := none } (15 / 2)
      = [] := by
    rw [scanNeighbors, offs]
    rw [List.filterMap_cons_none hC5L1s2o1,
      List.filterMap_cons_none hC5L1s2o2,
      List.filterMap_cons_none hC5L1s2o3,
      List.filterMap_cons_none hC5L1s2o4,
      List.filterMap_cons_none hC5L1s2o5,
      List.filterMap_cons_none hC5L1s2o6,
      List.filterMap_cons_none hC5L1s2o7,
      List.filterMap_cons_none hC5L1s2o8]
    rfl
  have hC5L1fm : findMerging
      [(((0 : ℤ), (0 : ℤ)), { sum := (11, 0), center := (11 / 2, 0), count := 2, textSumProperty := 0, children := [0, 1], key := (0, 0), parent := none }),
        (((1 : ℤ), (0 : ℤ)), { sum := (19, 0), center := (19, 0), count := 1, textSumProperty := 0, children := [2], key := (1, 0), parent := none })] (15 / 2)
      = ([], []) := by
    norm_num [findMerging, findMergingLoop, hC5L1s1scan, hC5L1s2scan, Prod.ext_iff, -Prod.mk_zero_zero, -Prod.mk_one_one]
  have hC5L1mc : mergeClusters
      [(((0 : ℤ), (0 : ℤ)), { sum := (11, 0), center := (11 / 2, 0), count := 2, textSumProperty := 0, children := [0, 1], key := (0, 0), parent := none }),
        (((1 : ℤ), (0 : ℤ)), { sum := (19, 0), center := (19, 0), count := 1, textSumProperty := 0, children := [2], key := (1, 0), parent := none })] (15 / 2)
      = lr1C5 := by
    simp only [mergeClusters, mergedState, hC5L1fm]
    norm_num [cmapInit, mergeEntry, absorbOne, absorbFun, centerFun, alook, aupd,
      aerase, aset, lr1C5, Prod.ext_iff, cadd, cmulq, -Prod.mk_zero_zero, -Prod.mk_one_one]
  have haux0 : computeZoomGridAux envC5 0 1 [] = (some lr1C5, []) := by
    show computeZoomBody envC5 (fun _ cache => (none, cache)) 1 [] = (some lr1C5, [])
    rw [computeZoomBody, hext]
    have hpre1 : preResult envC5 (fun _ cache => (none, cache)) 1 [] = (none, []) := by
      norm_num [preResult, clook, envC5]
    simp only [hpre1]
    have hcell1 : cellSize envC5 1 / 2 = 15 / 2 := by norm_num [cellSize, envC5]
    rw [hcell1, hbg1, hC5L1mc]
  have hpre2 : preResult envC5 (computeZoomGridAux envC5 0) 2 []
      = (some lr1C5, [((1 : ℤ), some lr1C5)]) := by
    have hmz : envC5.minZoom = 1 := rfl
    simp only [preResult, hmz]
    norm_num [clook, cset, haux0, Prod.ext_iff]
  have hbg2 : bucketGrids envC5 ⟨0, 0, 19, 0⟩ 2 (some lr1C5)
      = [(((0 : ℤ), (0 : ℤ)), { sum := (0, 0), center := (0, 0), count := 1, textSumProperty := 0, children := [0], key := (0, 0), parent := some (0, 0) }),
        (((1 : ℤ), (0 : ℤ)), { sum := (30, 0), center := (15, 0), count := 2, textSumProperty := 0, children := [1, 2], key := (1, 0), parent := some (0, 0) })] := by
    norm_num [bucketGrids, markerPoints, initGridSystem, envC5, geoExtent, extCombine,
      addPoint, alook, bucketKey, cellSize, preTOf, extMin, cadd, cmulq, parentOfPoint,
      aupd, lr1C5, Prod.ext_iff]
  have hC5L2s1o1 : scanHit
      [(((0 : ℤ), (0 : ℤ)), { sum := (0, 0), center := (0, 0), count := 1, textSumProperty := 0, children := [0], key := (0, 0), parent := some (0, 0) }),
        (((1 : ℤ), (0 : ℤ)), { sum := (30, 0), center := (15, 0), count := 2, textSumProperty := 0, children := [1, 2], key := (1, 0), parent := some (0, 0) })]
      { sum := (0, 0), center := (0, 0), count := 1, textSumProperty := 0, children := [0], key := (0, 0), parent := some (0, 0) } (5) (-1, -1)
      = none := by
    norm_num [scanHit, alook, distWithin, Prod.ext_iff, -Prod.mk_zero_zero, -Prod.mk_one_one]
  have hC5L2s1o2 : scanHit
      [(((0 : ℤ), (0 : ℤ)), { sum := (0, 0), center := (0, 0), count := 1, textSumProperty := 0, children := [0], key := (0, 0), parent := some (0, 0) }),
        (((1 : ℤ), (0 : ℤ)), { sum := (30, 0), center := (15, 0), count := 2, textSumProperty := 0, children := [1, 2], key := (1, 0), parent := some (0, 0) })]
      { sum := (0, 0), center := (0, 0), count := 1, textSumProperty := 0, children := [0], key := (0, 0), parent := some (0, 0) } (5) (-1, 0)
      = none := by
    norm_num [scanHit, alook, distWithin, Prod.ext_iff, -Prod.mk_zero_zero, -Prod.mk_one_one]
  have hC5L2s1o3 : scanHit
      [(((0 : ℤ), (0 : ℤ)), { sum := (0, 0), center := (0, 0), count := 1, textSumProperty := 0, children := [0], key := (0, 0), parent := some (0, 0) }),
        (((1 : ℤ), (0 : ℤ)), { sum := (30, 0), center := (15, 0), count := 2, textSumProperty := 0, children := [1, 2], key := (1, 0), parent := some (0, 0) })]
      { sum := (0, 0), center := (0, 0), count := 1, textSumProperty := 0, children := [0], key := (0, 0), parent := some (0, 0) } (5) (-1, 1)
      = none := by
    norm_num [scanHit, alook, distWithin, Prod.ext_iff, -Prod.mk_zero_zero, -Prod.mk_one_one]
  have hC5L2s1o4 : scanHit
      [(((0 : ℤ), (0 : ℤ)), { sum := (0, 0), center := (0, 0), count := 1, textSumProperty := 0, children := [0], key := (0, 0), parent := some (0, 0) }),
        (((1 : ℤ), (0 : ℤ)), { sum := (30, 0), center := (15, 0), count := 2, textSumProperty := 0, children := [1, 2], key := (1, 0), parent := some (0, 0) })]
      { sum := (0, 0), center := (0, 0), count := 1, textSumProperty := 0, children := [0], key := (0, 0), parent := some (0, 0) } (5) (0, -1)
      = none := by
    norm_num [scanHit, alook, distWithin, Prod.ext_iff, -Prod.mk_zero_zero, -Prod.mk_one_one]
  have hC5L2s1o5 : scanHit
      [(((0 : ℤ), (0 : ℤ)), { sum := (0, 0), center := (0, 0), count := 1, textSumProperty := 0, children := [0], key := (0, 0), parent := some (0, 0) }),
        (((1 : ℤ), (0 : ℤ)), { sum := (30, 0), center := (15, 0), count := 2, textSumProperty := 0, children := [1, 2], key := (1, 0), parent := some (0, 0) })]
      { sum := (0, 0), center := (0, 0), count := 1, textSumProperty := 0, children := [0], key := (0, 0), parent := some (0, 0) } (5) (0, 1)
      = none := by
    norm_num [scanHit, alook, distWithin, Prod.ext_iff, -Prod.mk_zero_zero, -Prod.mk_one_one]
  have hC5L2s1o6 : scanHit
      [(((0 : ℤ), (0 : ℤ)), { sum := (0, 0), center := (0, 0), count := 1, textSumProperty := 0, children := [0], key := (0, 0), parent := some (0, 0) }),
        (((1 : ℤ), (0 : ℤ)), { sum := (30, 0), center := (15, 0), count := 2, textSumProperty := 0, children := [1, 2], key := (1, 0), parent := some (0, 0) })]
      { sum := (0, 0), center := (0, 0), count := 1, textSumProperty := 0, children := [0], key := (0, 0), parent := some (0, 0) } (5) (1, -1)
      = none := by
    norm_num [scanHit, alook, distWithin, Prod.ext_iff, -Prod.mk_zero_zero, -Prod.mk_one_one]
  have hC5L2s1o7 : scanHit
      [(((0 : ℤ), (0 : ℤ)), { sum := (0, 0), center := (0, 0), count := 1, textSumProperty := 0, children := [0], key := (0, 0), parent := some (0, 0) }),
        (((1 : ℤ), (0 : ℤ)), { sum := (30, 0), center := (15, 0), count := 2, textSumProperty := 0, children := [1, 2], key := (1, 0), parent := some (0, 0) })]
      { sum := (0, 0), center := (0, 0), count := 1, textSumProperty := 0, children := [0], key := (0, 0), parent := some (0, 0) } (5) (1, 0)
      = none := by
    norm_num [scanHit, alook, distWithin, Prod.ext_iff, -Prod.mk_zero_zero, -Prod.mk_one_one]
  have hC5L2s1o8 : scanHit
      [(((0 : ℤ), (0 : ℤ)), { sum := (0, 0), center := (0, 0), count := 1, textSumProperty := 0, children := [0], key := (0, 0), parent := some (0, 0) }),
        (((1 : ℤ), (0 : ℤ)), { sum := (30, 0), center := (15, 0), count := 2, textSumProperty := 0, children := [1, 2], key := (1, 0), parent := some (0, 0) })]
      { sum := (0, 0), center := (0, 0), count := 1, textSumProperty := 0, children := [0], key := (0, 0), parent := some (0, 0) } (5) (1, 1)
      = none := by
    norm_num [scanHit, alook, distWithin, Prod.ext_iff, -Prod.mk_zero_zero, -Prod.mk_one_one]
  have hC5L2s1scan : scanNeighbors
      [(((0 : ℤ), (0 : ℤ)), { sum := (0, 0), center := (0, 0), count := 1, textSumProperty := 0, children := [0], key := (0, 0), parent := some (0, 0) }),
        (((1 : ℤ), (0 : ℤ)), { sum := (30, 0), center := (15, 0), count := 2, textSumProperty := 0, children := [1, 2], key := (1, 0), parent := some (0, 0) })]
      { sum := (0, 0), center := (0, 0), count := 1, textSumProperty := 0, children := [0], key := (0, 0), parent := some (0, 0) } (5)
      = [] := by
    rw [scanNeighbors, offs]
    rw [List.filterMap_cons_none hC5L2s1o1,
      List.filterMap_cons_none hC5L2s1o2,
      List.filterMap_cons_none hC5L2s1o3,
      List.filterMap_cons_none hC5L2s1o4,
      List.filterMap_cons_none hC5L2s1o5,
      List.filterMap_cons_none hC5L2s1o6,
      List.filterMap_cons_none hC5L2s1o7,
      List.filterMap_cons_none hC5L2s1o8]
    rfl
  have hC5L2s2o1 : scanHit
      [(((0 : ℤ), (0 : ℤ)), { sum := (0, 0), center := (0, 0), count := 1, textSumProperty := 0, children := [0], key := (0, 0), parent := some (0, 0) }),
        (((1 : ℤ), (0 : ℤ)), { sum := (30, 0), center := (15, 0), count := 2, textSumProperty := 0, children := [1, 2], key := (1, 0), parent := some (0, 0) })]
      { sum := (30, 0), center := (15, 0), count := 2, textSumProperty := 0, children := [1, 2], key := (1, 0), parent := some (0, 0) } (5) (-1, -1)
      = none := by
    norm_num [scanHit, alook, distWithin, Prod.ext_iff, -Prod.mk_zero_zero, -Prod.mk_one_one]
  have hC5L2s2o2 : scanHit
      [(((0 : ℤ), (0 : ℤ)), { sum := (0, 0), center := (0, 0), count := 1, textSumProperty := 0, children := [0], key := (0, 0), parent := some (0, 0) }),
        (((1 : ℤ), (0 : ℤ)), { sum := (30, 0), center := (15, 0), count := 2, textSumProperty := 0, children := [1, 2], key := (1, 0), parent := some (0, 0) })]
      { sum := (30, 0), center := (15, 0), count := 2, textSumProperty := 0, children := [1, 2], key := (1, 0), parent := some (0, 0) } (5) (-1, 0)
      = none := by
    norm_num [scanHit, alook, distWithin, Prod.ext_iff, -Prod.mk_zero_zero, -Prod.mk_one_one]
  have hC5L2s2o3 : scanHit
      [(((0 : ℤ), (0 : ℤ)), { sum := (0, 0), center := (0, 0), count := 1, textSumProperty := 0, children := [0], key := (0, 0), parent := some (0, 0) }),
        (((1 : ℤ), (0 : ℤ)), { sum := (30, 0), center := (15, 0), count := 2, textSumProperty := 0, children := [1, 2], key := (1, 0), parent := some (0, 0) })]
      { sum := (30, 0), center := (15, 0), count := 2, textSumProperty := 0, children := [1, 2], key := (1, 0), parent := some (0, 0) } (5) (-1, 1)
      = none := by
    norm_num [scanHit, alook, distWithin, Prod.ext_iff, -Prod.mk_zero_zero, -Prod.mk_one_one]
  have hC5L2s2o4 : scanHit
      [(((0 : ℤ), (0 : ℤ)), { sum := (0, 0), center := (0, 0), count := 1, textSumProperty := 0, children := [0], key := (0, 0), parent := some (0, 0) }),
        (((1 : ℤ), (0 : ℤ)), { sum := (30, 0), center := (15, 0), count := 2, textSumProperty := 0, children := [1, 2], key := (1, 0), parent := some (0, 0) })]
      { sum := (30, 0), center := (15, 0), count := 2, textSumProperty := 0, children := [1, 2], key := (1, 0), parent := some (0, 0) } (5) (0, -1)
      = none := by
    norm_num [scanHit, alook, distWithin, Prod.ext_iff, -Prod.mk_zero_zero, -Prod.mk_one_one]
  have hC5L2s2o5 : scanHit
      [(((0 : ℤ), (0 : ℤ)), { sum := (0, 0), center := (0, 0), count := 1, textSumProperty := 0, children := [0], key := (0, 0), parent := some (0, 0) }),
        (((1 : ℤ), (0 : ℤ)), { sum := (30, 0), center := (15, 0), count := 2, textSumProperty := 0, children := [1, 2], key := (1, 0), parent := some (0, 0) })]
      { sum := (30, 0), center := (15, 0), count := 2, textSumProperty := 0, children := [1, 2], key := (1, 0), parent := some (0, 0) } (5) (0, 1)
      = none := by
    norm_num [scanHit, alook, distWithin, Prod.ext_iff, -Prod.mk_zero_zero, -Prod.mk_one_one]
  have hC5L2s2o6 : scanHit
      [(((0 : ℤ), (0 : ℤ)), { sum := (0, 0), center := (0, 0), count := 1, textSumProperty := 0, children := [0], key := (0, 0), parent := some (0, 0) }),
        (((1 : ℤ), (0 : ℤ)), { sum := (30, 0), center := (15, 0), count := 2, textSumProperty := 0, children := [1, 2], key := (1, 0), parent := some (0, 0) })]
      { sum := (30, 0), center := (15, 0), count := 2, textSumProperty := 0, children := [1, 2], key := (1, 0), parent := some (0, 0) } (5) (1, -1)
      = none := by
    norm_num [scanHit, alook, distWithin, Prod.ext_iff, -Prod.mk_zero_zero, -Prod.mk_one_one]
  have hC5L2s2o7 : scanHit
      [(((0 : ℤ), (0 : ℤ)), { sum := (0, 0), center := (0, 0), count := 1, textSumProperty := 0, children := [0], key := (0, 0), parent := some (0, 0) }),
        (((1 : ℤ), (0 : ℤ)), { sum := (30, 0), center := (15, 0), count := 2, textSumProperty := 0, children := [1, 2], key := (1, 0), parent := some (0, 0) })]
      { sum := (30, 0), center := (15, 0), count := 2, textSumProperty := 0, children := [1, 2], key := (1, 0), parent := some (0, 0) } (5) (1, 0)
      = none := by
    norm_num [scanHit, alook, distWithin, Prod.ext_iff, -Prod.mk_zero_zero, -Prod.mk_one_one]
  have hC5L2s2o8 : scanHit
      [(((0 : ℤ), (0 : ℤ)), { sum := (0, 0), center := (0, 0), count := 1, textSumProperty := 0, children := [0], key := (0, 0), parent := some (0, 0) }),
        (((1 : ℤ), (0 : ℤ)), { sum := (30, 0), center := (15, 0), count := 2, textSumProperty := 0, children := [1, 2], key := (1, 0), parent := some (0, 0) })]
      { sum := (30, 0), center := (15, 0), count := 2, textSumProperty := 0, children := [1, 2], key := (1, 0), parent := some (0, 0) } (5) (1, 1)
      = none := by
    norm_num [scanHit, alook, distWithin, Prod.ext_iff, -Prod.mk_zero_zero, -Prod.mk_one_one]
  have hC5L2s2scan : scanNeighbors
      [(((0 : ℤ), (0 : ℤ)), { sum := (0, 0), center := (0, 0), count := 1, textSumProperty := 0, children := [0], key := (0, 0), parent := some (0, 0) }),
        (((1 : ℤ), (0 : ℤ)), { sum := (30, 0), center := (15, 0), count := 2, textSumProperty := 0, children := [1, 2], key := (1, 0), parent := some (0, 0) })]
      { sum := (30, 0), center := (15, 0), count := 2, textSumProperty := 0, children := [1, 2], key := (1, 0), parent := some (0, 0) } (5)
      = [] := by
    rw [scanNeighbors, offs]
    rw [List.filterMap_cons_none hC5L2s2o1,
      List.filterMap_cons_none hC5L2s2o2,
      List.filterMap_cons_none hC5L2s2o3,
      List.filterMap_cons_none hC5L2s2o4,
      List.filterMap_cons_none hC5L2s2o5,
      List.filterMap_cons_none hC5L2s2o6,
      List.filterMap_cons_none hC5L2s2o7,
      List.filterMap_cons_none hC5L2s2o8]
    rfl
  have hC5L2fm : findMerging
      [(((0 : ℤ), (0 : ℤ)), { sum := (0, 0), center := (0, 0), count := 1, textSumProperty := 0, children := [0], key := (0, 0), parent := some (0, 0) }),
        (((1 : ℤ), (0 : ℤ)), { sum := (30, 0), center := (15, 0), count := 2, textSumProperty := 0, children := [1, 2], key := (1, 0), parent := some (0, 0) })] (5)
      = ([], []) := by
    norm_num [findMerging, findMergingLoop, hC5L2s1scan, hC5L2s2scan, Prod.ext_iff, -Prod.mk_zero_zero, -Prod.mk_one_one]
  have hC5L2mc : mergeClusters
      [(((0 : ℤ), (0 : ℤ)), { sum := (0, 0), center := (0, 0), count := 1, textSumProperty := 0, children := [0], key := (0, 0), parent := some (0, 0) }),
        (((1 : ℤ), (0 : ℤ)), { sum := (30, 0), center := (15, 0), count := 2, textSumProperty := 0, children := [1, 2], key := (1, 0), parent := some (0, 0) })] (5)
      = lr2C5 := by
    simp only [mergeClusters, mergedState, hC5L2fm]
    norm_num [cmapInit, mergeEntry, absorbOne, absorbFun, centerFun, alook, aupd,
      aerase, aset, lr2C5, Prod.ext_iff, cadd, cmulq, -Prod.mk_zero_zero, -Prod.mk_one_one]
  show computeZoomBody envC5 (computeZoomGridAux envC5 0) 2 []
    = (some lr2C5, [((1 : ℤ), some lr1C5)])
  rw [computeZoomBody, hext]
  simp only [hpre2]
  have hcell2 : cellSize envC5 2 / 2 = 5 := by norm_num [cellSize, envC5]
  rw [hcell2, hbg2, hC5L2mc]

/-- C5 counterexample: at level 2 of `envC5`, the cluster at key
`(1, 0)` (center `(15, 0)`) occupies the cell `(1, 0)` at level 1's cell
size 15, and level 1's `clusterMap` maps `(1, 0)` to the surviving
level-1 cluster `(1, 0)` — but the code stored `parent = (0, 0)`,
because the parent was looked up at cell-creation time from the creating
point `(11, 0)` (whose level-1 bucket is `(0, 0)`), not from the
cluster the cell ends up holding. -/
theorem claim_C5_counterexample :
    ∃ lr2 lr1 c,
      (computeZoomGridAux envC5 1 2 []).1 = some lr2 ∧
      clook (computeZoomGridAux envC5 1 2 []).2 1 = some (some lr1) ∧
      alook lr2.clusters ((1 : ℤ), (0 : ℤ)) = some c ∧
      bucketKey (0, 0) (cellSize envC5 1) c.center = ((1 : ℤ), (0 : ℤ)) ∧
      alook lr1.clusterMap ((1 : ℤ), (0 : ℤ)) = some ((1 : ℤ), (0 : ℤ)) ∧
      c.parent = some ((0 : ℤ), (0 : ℤ)) ∧
      c.parent ≠ some ((1 : ℤ), (0 : ℤ)) := by
  refine ⟨lr2C5, lr1C5,
    { sum := (30, 0), center := (15, 0), count := 2, textSumProperty := 0, children := [1, 2], key := (1, 0), parent := some (0, 0) },
    ?_, ?_, ?_, ?_, ?_, ?_, ?_⟩
  · rw [eval_envC5]
  · rw [eval_envC5]
    norm_num [clook]
  · norm_num [lr2C5, alook, Prod.ext_iff]
  · norm_num [bucketKey, cellSize, envC5, Prod.ext_iff]
  · norm_num [lr1C5, alook, Prod.ext_iff]
  · norm_num
  · norm_num [Prod.ext_iff]

/-- C5 (amended): for every cluster surviving the merge of level `z`,
its `parent` is the one assigned when its cell was created: the level
`z-1` `clusterMap` entry for the cell key computed from the coordinates
of the *first* point of `_markerPoints` that landed in the cluster's
cell, at level `z-1`'s cell size — fixed at creation time, before any
merging, and untouched by the merge pass; it is `none` when level `z-1`
has no resolution (`preT` falsy) or no cached result (`preCache`
falsy). -/
theorem claim_C5_parent_from_first_point (env : ClusterEnv) (e : Extent) (z : ℤ)
    (pc : Option LevelResult) (k : GKey) (c : Cell)
    (hc : alook (mergeClusters (bucketGrids env e z pc) (cellSize env z / 2)).clusters k
      = some c) :
    ∃ c0 p, alook (bucketGrids env e z pc) k = some c0 ∧
      c.parent = c0.parent ∧
      (markerPoints env).find?
        (fun p => decide (bucketKey (extMin e) (cellSize env z) (p.x, p.y) = k)) = some p ∧
      c0.parent = parentOfPoint (extMin e) (preTOf env z) pc p := by
  obtain ⟨c0, hc0, hp⟩ := mergeClusters_parent hc
  rcases bucketFold_parent env.useProp (extMin e) (cellSize env z) (preTOf env z) pc
      (markerPoints env) [] k c0 hc0 with ⟨c1, hc1, _⟩ | ⟨_, p, hfind, hpar⟩
  · exact absurd hc1 (by simp [alook])
  · exact ⟨c0, p, hc0, hp, hfind, hpar⟩

theorem claim_C5_parent_from_first_point_witness :
    ∃ c0 p, alook (bucketGrids envC5 ⟨0, 0, 19, 0⟩ 2 (some lr1C5)) ((1 : ℤ), (0 : ℤ))
        = some c0 ∧
      ({ sum := (30, 0), center := (15, 0), count := 2, textSumProperty := 0, children := [1, 2], key := (1, 0), parent := some (0, 0) } : Cell).parent = c0.parent ∧
      (markerPoints envC5).find?
        (fun p => decide (bucketKey (extMin ⟨0, 0, 19, 0⟩) (cellSize envC5 2) (p.x, p.y)
          = ((1 : ℤ), (0 : ℤ)))) = some p ∧
      c0.parent = parentOfPoint (extMin ⟨0, 0, 19, 0⟩) (preTOf envC5 2) (some lr1C5) p :=
  claim_C5_parent_from_first_point envC5 ⟨0, 0, 19, 0⟩ 2 (some lr1C5)
    ((1 : ℤ), (0 : ℤ))
    { sum := (30, 0), center := (15, 0), count := 2, textSumProperty := 0, children := [1, 2], key := (1, 0), parent := some (0, 0) }
    (by norm_num [bucketGrids, markerPoints, initGridSystem, envC5, geoExtent, extCombine,
      addPoint, alook, bucketKey, cellSize, preTOf, extMin, mergeClusters, mergedState,
      cmapInit, findMerging, findMergingLoop, scanNeighbors, scanHit, offs, mergeEntry,
      absorbOne, absorbFun, centerFun, aupd, aerase, aset, distWithin, cadd, cmulq,
      parentOfPoint, lr1C5, Prod.ext_iff])
